import Mathlib

/-!
# OAuth 2.0 authorization-code flow with PKCE: the handlers of
# `Example-Production-Grade-Oauth2.go`

A shallow embedding of the live (uncommented) Go program: `randomString`,
`generateCodeChallenge`, `generateJWT`, `handleLogin`, `handleCallback` and
`handleLogout`, together with the library behaviour they rely on
(`base64.RawURLEncoding`, `sha256.Sum256`, the Redis commands `SET`/`GET`/`DEL`,
`oauth2.Config.AuthCodeURL`).  The process-wide globals (`oauth2Config`,
`jwtSecret`, `redisClient`) become explicit arguments, the random source is a
tape of bytes, the clock is an argument, and the upstream provider and the JWT
library are functions supplied by the environment.  Every handler returns the
response it writes, the store it leaves, and the list of outbound calls it made.
-/

namespace OAuth2

/-! ## Bytes, `encoding/base64` (RawURLEncoding) -/

/-- Go `byte`. -/
abbrev Byte := Fin 256

/-- Go `[]byte(s)`: the UTF-8 bytes of a string. -/
def stringBytes (s : String) : List Byte :=
  (s.data.flatMap String.utf8EncodeChar).map (fun b => Fin.ofNat b.toNat)

/-- The alphabet of `base64.URLEncoding`. -/
def encodeURL : List Char :=
  "ABCDEFGHIJKLMNOPQRSTUVWXYZabcdefghijklmnopqrstuvwxyz0123456789-_".toList

/-- The table lookup `enc.encode[i]`. -/
def encodeAt (i : Nat) : Char := encodeURL.getD i 'A'

/-- The function `base64.RawURLEncoding.EncodeToString`: three source bytes give four
characters; a remainder of one or two bytes gives two or three characters and no padding. -/
def rawURLEncode : List Byte → List Char
  | b0 :: b1 :: b2 :: rest =>
    let val := b0.val <<< 16 ||| b1.val <<< 8 ||| b2.val
    encodeAt (val >>> 18 &&& 0x3F) :: encodeAt (val >>> 12 &&& 0x3F) ::
      encodeAt (val >>> 6 &&& 0x3F) :: encodeAt (val &&& 0x3F) :: rawURLEncode rest
  | [b0, b1] =>
    let val := b0.val <<< 16 ||| b1.val <<< 8
    [encodeAt (val >>> 18 &&& 0x3F), encodeAt (val >>> 12 &&& 0x3F),
      encodeAt (val >>> 6 &&& 0x3F)]
  | [b0] =>
    let val := b0.val <<< 16
    [encodeAt (val >>> 18 &&& 0x3F), encodeAt (val >>> 12 &&& 0x3F)]
  | [] => []

/-- The URL-safe alphabet `A-Z a-z 0-9 - _`. -/
def urlSafe (c : Char) : Bool :=
  ('A' ≤ c && c ≤ 'Z') || ('a' ≤ c && c ≤ 'z') || ('0' ≤ c && c ≤ '9') || c == '-' || c == '_'

/-! ## `crypto/sha256` -/

/-- The round constants of SHA-256 (the fractional parts of the cube roots of the first 64
primes, 32 bits each), in decimal. -/
def sha256K : List Nat := [
  1116352408, 1899447441, 3049323471, 3921009573, 961987163, 1508970993,
  2453635748, 2870763221, 3624381080, 310598401, 607225278, 1426881987,
  1925078388, 2162078206, 2614888103, 3248222580, 3835390401, 4022224774,
  264347078, 604807628, 770255983, 1249150122, 1555081692, 1996064986,
  2554220882, 2821834349, 2952996808, 3210313671, 3336571891, 3584528711,
  113926993, 338241895, 666307205, 773529912, 1294757372, 1396182291,
  1695183700, 1986661051, 2177026350, 2456956037, 2730485921, 2820302411,
  3259730800, 3345764771, 3516065817, 3600352804, 4094571909, 275423344,
  430227734, 506948616, 659060556, 883997877, 958139571, 1322822218,
  1537002063, 1747873779, 1955562222, 2024104815, 2227730452, 2361852424,
  2428436474, 2756734187, 3204031479, 3329325298]

/-- The eight 32-bit working words of SHA-256. -/
structure Digest where
  h0 : Nat
  h1 : Nat
  h2 : Nat
  h3 : Nat
  h4 : Nat
  h5 : Nat
  h6 : Nat
  h7 : Nat
deriving DecidableEq

/-- The initial hash value of SHA-256 (from the square roots of the first 8 primes). -/
def sha256Init : Digest :=
  ⟨1779033703, 3144134277, 1013904242, 2773480762,
   1359893119, 2600822924, 528734635, 1541459225⟩

/-- Rotate a 32-bit word right by `n` bits. -/
def rotr32 (x n : Nat) : Nat := (x >>> n ||| x <<< (32 - n)) % 2 ^ 32

/-- One of the 64 rounds: the working words and the sliding window of the last sixteen
message-schedule words; the window advances by one schedule word per round. -/
def sha256Round (s : Digest × List Nat) (k : Nat) : Digest × List Nat :=
  let (⟨a, b, c, d, e, f, g, h⟩, w) := s
  let wt := w.getD 0 0
  let t1 := (h + (rotr32 e 6 ^^^ rotr32 e 11 ^^^ rotr32 e 25)
    + ((e &&& f) ^^^ ((e ^^^ 0xffffffff) &&& g)) + k + wt) % 2 ^ 32
  let t2 := ((rotr32 a 2 ^^^ rotr32 a 13 ^^^ rotr32 a 22)
    + ((a &&& b) ^^^ (a &&& c) ^^^ (b &&& c))) % 2 ^ 32
  let w1 := w.getD 1 0
  let w14 := w.getD 14 0
  let next := ((rotr32 w14 17 ^^^ rotr32 w14 19 ^^^ (w14 >>> 10)) + w.getD 9 0
    + (rotr32 w1 7 ^^^ rotr32 w1 18 ^^^ (w1 >>> 3)) + wt) % 2 ^ 32
  (⟨(t1 + t2) % 2 ^ 32, a, b, c, (d + t1) % 2 ^ 32, e, f, g⟩, w.drop 1 ++ [next])

/-- Big-endian 32-bit words of a byte block. -/
def beWords : List Byte → List Nat
  | b0 :: b1 :: b2 :: b3 :: rest =>
    (b0.val <<< 24 ||| b1.val <<< 16 ||| b2.val <<< 8 ||| b3.val) :: beWords rest
  | _ => []

/-- The compression function on one 64-byte block. -/
def sha256Block (d : Digest) (block : List Byte) : Digest :=
  let r := (sha256K.foldl sha256Round (d, beWords block)).1
  ⟨(d.h0 + r.h0) % 2 ^ 32, (d.h1 + r.h1) % 2 ^ 32, (d.h2 + r.h2) % 2 ^ 32,
   (d.h3 + r.h3) % 2 ^ 32, (d.h4 + r.h4) % 2 ^ 32, (d.h5 + r.h5) % 2 ^ 32,
   (d.h6 + r.h6) % 2 ^ 32, (d.h7 + r.h7) % 2 ^ 32⟩

/-- Compress `n` consecutive 64-byte blocks. -/
def sha256Blocks : Nat → Digest → List Byte → Digest
  | 0, d, _ => d
  | n + 1, d, p => sha256Blocks n (sha256Block d (p.take 64)) (p.drop 64)

/-- The `width` low-order bytes of `x`, most significant first. -/
def beBytes (width x : Nat) : List Byte :=
  (List.range width).reverse.map (fun i => Fin.ofNat (x >>> (8 * i)))

/-- SHA-256 padding: a `0x80` byte, zeros up to 56 mod 64, the bit length in 8 bytes. -/
def sha256Pad (msg : List Byte) : List Byte :=
  msg ++ [0x80] ++ List.replicate ((119 - msg.length % 64) % 64) 0 ++ beBytes 8 (8 * msg.length)

/-- The function `sha256.Sum256`. -/
def Sum256 (msg : List Byte) : List Byte :=
  let p := sha256Pad msg
  let d := sha256Blocks (p.length / 64) sha256Init p
  beBytes 4 d.h0 ++ beBytes 4 d.h1 ++ beBytes 4 d.h2 ++ beBytes 4 d.h3 ++
    beBytes 4 d.h4 ++ beBytes 4 d.h5 ++ beBytes 4 d.h6 ++ beBytes 4 d.h7

/-! ## `crypto/rand`, `randomString`, `generateCodeChallenge` -/

/-- How a run ends without a response: `log.Fatal` or a runtime panic. -/
inductive Fault where
  | fatal (msg : String)
  | panic (msg : String)
deriving DecidableEq

/-- The random source: the bytes it will deliver, in order. -/
abbrev Entropy := List Byte

/-- The call `rand.Read(b)` with `len(b) = n`: fills the whole buffer from the source, or
reports an error when the source cannot deliver. -/
def randRead (n : Nat) (src : Entropy) : Except String (List Byte × Entropy) :=
  if n ≤ src.length then .ok (src.take n, src.drop n) else .error "entropy source unavailable"

/-- Go `s[:n]` on a string: panics when `n` exceeds the length. -/
def sliceTo (s : List Char) (n : Nat) : Except Fault (List Char) :=
  if n ≤ s.length then .ok (s.take n) else .error (.panic "slice bounds out of range")

/-- The function `randomString`. -/
def randomString (length : Nat) (src : Entropy) : Except Fault (String × Entropy) :=
  match randRead length src with
  | .error err => .error (.fatal err)
  | .ok (b, src') =>
    match sliceTo (rawURLEncode b) length with
    | .error f => .error f
    | .ok s => .ok (String.mk s, src')

/-- The function `generateCodeChallenge`. -/
def generateCodeChallenge (verifier : String) : String :=
  let hash := Sum256 (stringBytes verifier)
  String.mk (rawURLEncode hash)

/-! ## Time -/

/-- Go `time.Second`, in nanoseconds; instants are nanoseconds since the Unix epoch. -/
def Second : Nat := 1000000000

/-- Go `time.Minute`. -/
def Minute : Nat := 60 * Second

/-- Go `time.Hour`. -/
def Hour : Nat := 60 * Minute

/-- Go `t.Unix()`: whole seconds since the epoch. -/
def unix (t : Nat) : Int := (t / Second : Nat)

/-! ## Redis -/

/-- One key of the Redis keyspace: its string value and its expiry instant, if any. -/
structure Entry where
  key : String
  value : String
  expiresAt : Option Nat
deriving DecidableEq

/-- The Redis keyspace, most recent write first; a key is looked up at its first entry. -/
abbrev Store := List Entry

/-- The errors of a Redis command: `redis.Nil` (no such key) or a backend failure. -/
inductive RedisErr where
  | nil
  | unavailable
deriving DecidableEq

/-- Redis keeps a key with an expiry `t` while the clock has not passed `t`. -/
def Entry.live (e : Entry) (now : Nat) : Bool :=
  match e.expiresAt with
  | none => true
  | some t => now ≤ t

/-- The entry a key resolves to. -/
def Store.lookup (st : Store) (key : String) : Option Entry :=
  st.find? (fun e => e.key == key)

/-- The call `redisClient.Get(ctx, key).Result()`. -/
def redisGet (up : Bool) (st : Store) (now : Nat) (key : String) : Except RedisErr String :=
  if up then
    match st.lookup key with
    | some e => if e.live now then .ok e.value else .error .nil
    | none => .error .nil
  else .error .unavailable

/-- The call `redisClient.Set(ctx, key, value, ttl)`: overwrites the key; a zero `ttl` means
no expiry.  Returns the store and the command error. -/
def redisSet (up : Bool) (st : Store) (now : Nat) (key value : String) (ttl : Nat) :
    Store × Option RedisErr :=
  if up then
    (⟨key, value, if ttl = 0 then none else some (now + ttl)⟩ :: st.filter (fun e => e.key != key),
      none)
  else (st, some .unavailable)

/-- The call `redisClient.Del(ctx, key)`. -/
def redisDel (up : Bool) (st : Store) (key : String) : Store × Option RedisErr :=
  if up then (st.filter (fun e => e.key != key), none) else (st, some .unavailable)

/-! ## `net/url`, `golang.org/x/oauth2` -/

/-- Go `url.Values` with one value per key. -/
abbrev Values := List (String × String)

/-- The method `Values.Get`: the value of the key, or the empty string. -/
def Values.get (v : Values) (key : String) : String :=
  match v.find? (fun p => p.1 == key) with
  | some p => p.2
  | none => ""

/-- The method `Values.Set`. -/
def Values.set (v : Values) (key value : String) : Values :=
  v.filter (fun p => p.1 != key) ++ [(key, value)]

/-- The fields of `oauth2Config` and the global `jwtSecret`. -/
structure Config where
  clientID : String
  clientSecret : String
  redirectURL : String
  scopes : List String
  authURL : String
  jwtSecret : String
deriving DecidableEq

/-- An authorization URL: the endpoint and the query parameters appended to it. -/
structure AuthURL where
  endpoint : String
  query : Values
deriving DecidableEq

/-- The method `oauth2.Config.AuthCodeURL(state, opts...)`, every option being a
`SetAuthURLParam(key, value)`. -/
def AuthCodeURL (c : Config) (state : String) (opts : List (String × String)) : AuthURL :=
  let v : Values := [("response_type", "code"), ("client_id", c.clientID)]
  let v := if c.redirectURL != "" then v.set "redirect_uri" c.redirectURL else v
  let v := if c.scopes.length > 0 then v.set "scope" (" ".intercalate c.scopes) else v
  let v := if state != "" then v.set "state" state else v
  ⟨c.authURL, opts.foldl (fun v o => v.set o.1 o.2) v⟩

/-- An `oauth2.Token`. -/
structure Token where
  accessToken : String
  tokenType : String
  refreshToken : String
deriving DecidableEq

/-! ## Claims, responses, the environment -/

/-- The decoded userinfo document, a `map[string]interface{}`: member name and JSON text
of the member. -/
abbrev UserInfo := List (String × String)

/-- The values the program puts in a claim set or a JSON response. -/
inductive ClaimValue where
  | str (s : String)
  | num (n : Int)
  | obj (u : UserInfo)
deriving DecidableEq

/-- Go `jwt.MapClaims` (and the `map[string]interface{}` of the JSON response). -/
abbrev MapClaims := List (String × ClaimValue)

/-- What a handler writes to its `http.ResponseWriter`. -/
inductive Response where
  | redirect (code : Nat) (url : AuthURL)
  | error (code : Nat) (msg : String)
  | json (fields : MapClaims)
  | text (body : String)
deriving DecidableEq

/-- The status code of a response; a plain write has status 200. -/
def Response.status : Response → Nat
  | .redirect code _ => code
  | .error code _ => code
  | .json _ => 200
  | .text _ => 200

/-- The outbound calls a handler can make. -/
inductive Call where
  | redisGet (key : String)
  | redisSet (key value : String) (ttl : Nat)
  | redisDel (key : String)
  | exchange (code verifier : String)
  | userinfo (accessToken : String)
  | sign (claims : MapClaims) (secret : String)
deriving DecidableEq

/-- The response of an HTTP request that completed: its status code and its body. -/
structure HTTPResponse where
  statusCode : Nat
  body : String
deriving DecidableEq

/-- The collaborators of one request: whether Redis answers, the upstream token endpoint
(`oauth2Config.Exchange` with the `code_verifier` parameter), the userinfo request
(`client.Get`: an error when the request itself fails, the response otherwise, whatever its
status code), the JSON decoder on the body of that response, and
`jwt.NewWithClaims(HS256, claims).SignedString(secret)`. -/
structure Env where
  redisUp : Bool
  exchange : String → String → Except String Token
  userinfo : Token → Except String HTTPResponse
  decode : String → Except String UserInfo
  sign : MapClaims → String → Except String String

/-- An incoming request: its URL query. -/
structure Request where
  query : Values
deriving DecidableEq

/-- The result of a handler: the response, the store afterwards, the calls made in order. -/
structure Outcome where
  resp : Response
  store : Store
  calls : List Call
deriving DecidableEq

/-! ## The handlers -/

/-- The handler `handleLogin`. -/
def handleLogin (cfg : Config) (env : Env) (now : Nat) (st : Store) (src : Entropy) :
    Except Fault (Outcome × Entropy) :=
  match randomString 32 src with
  | .error f => .error f
  | .ok (state, src1) =>
    match randomString 64 src1 with
    | .error f => .error f
    | .ok (codeVerifier, src2) =>
      let codeChallenge := generateCodeChallenge codeVerifier
      let st' := (redisSet env.redisUp st now state codeVerifier (Minute * 5)).1
      let authURL := AuthCodeURL cfg state
        [("code_challenge", codeChallenge), ("code_challenge_method", "S256")]
      .ok (⟨.redirect 302 authURL, st', [.redisSet state codeVerifier (Minute * 5)]⟩, src2)

/-- The handler `handleCallback`. -/
def handleCallback (cfg : Config) (env : Env) (now : Nat) (st : Store) (r : Request) : Outcome :=
  let state := r.query.get "state"
  let code := r.query.get "code"
  match redisGet env.redisUp st now state with
  | .error _ => ⟨.error 401 "Invalid or expired state", st, [.redisGet state]⟩
  | .ok codeVerifier =>
    match env.exchange code codeVerifier with
    | .error err =>
      ⟨.error 500 ("Failed to exchange token: " ++ err), st,
        [.redisGet state, .exchange code codeVerifier]⟩
    | .ok token =>
      match env.userinfo token with
      | .error err =>
        ⟨.error 500 ("Failed to get user info: " ++ err), st,
          [.redisGet state, .exchange code codeVerifier, .userinfo token.accessToken]⟩
      | .ok resp =>
        match env.decode resp.body with
        | .error _ =>
          ⟨.error 500 "Failed to parse user info", st,
            [.redisGet state, .exchange code codeVerifier, .userinfo token.accessToken]⟩
        | .ok userInfo =>
          let claims : MapClaims :=
            [("access_token", .str token.accessToken),
             ("exp", .num (unix (now + Hour))),
             ("user", .obj userInfo)]
          match env.sign claims cfg.jwtSecret with
          | .error _ =>
            ⟨.error 500 "Failed to create JWT token", st,
              [.redisGet state, .exchange code codeVerifier, .userinfo token.accessToken,
                .sign claims cfg.jwtSecret]⟩
          | .ok signedJWT =>
            ⟨.json [("jwt_token", .str signedJWT), ("user", .obj userInfo)], st,
              [.redisGet state, .exchange code codeVerifier, .userinfo token.accessToken,
                .sign claims cfg.jwtSecret]⟩

/-- The handler `handleLogout`. -/
def handleLogout (env : Env) (st : Store) (r : Request) : Outcome :=
  let token := r.query.get "token"
  if token != "" then
    ⟨.text "Logged out successfully", (redisDel env.redisUp st token).1, [.redisDel token]⟩
  else
    ⟨.text "Logged out successfully", st, []⟩

/-- The function `generateJWT`. -/
def generateJWT (env : Env) (now : Nat) (secret accessToken : String) : Except String String :=
  let claims : MapClaims :=
    [("access_token", .str accessToken), ("exp", .num (unix (now + Hour)))]
  env.sign claims secret


/-! ## Sequences of requests, fixtures -/

/-- A request other than a login: a callback or a logout, with its environment. -/
inductive Op where
  | callback (env : Env) (now : Nat) (r : Request)
  | logout (env : Env) (r : Request)

/-- Whether the request is a callback. -/
def Op.isCallback : Op → Bool
  | .callback _ _ _ => true
  | .logout _ _ => false

/-- The store after serving one request. -/
def Op.apply (cfg : Config) (st : Store) : Op → Store
  | .callback env now r => (handleCallback cfg env now st r).store
  | .logout env r => (handleLogout env st r).store

/-- The store after serving a sequence of requests, in order. -/
def runOps (cfg : Config) (st : Store) (ops : List Op) : Store :=
  ops.foldl (Op.apply cfg) st

/-- A sample configuration. -/
def sampleConfig : Config :=
  ⟨"client-id", "client-secret", "http://localhost:8080/callback", ["profile", "email"],
    "https://accounts.google.com/o/oauth2/auth", "jwt-secret"⟩

/-- A sample environment in which every collaborator succeeds. -/
def sampleEnv : Env :=
  ⟨true, fun _ _ => .ok ⟨"up-tok", "Bearer", ""⟩, fun _ => .ok ⟨200, "\x7b\"sub\":\"1\"\x7d"⟩,
    fun _ => .ok [("sub", "\"1\"")], fun _ _ => .ok "signed"⟩

/-- A sample random tape: 96 zero bytes. -/
def zeroTape : Entropy := List.replicate 96 0

/-- The state `randomString(32)` makes from the zero tape. -/
def zeroState : String := "AAAAAAAAAAAAAAAAAAAAAAAAAAAAAAAA"

/-- The verifier `randomString(64)` makes from the zero tape. -/
def zeroVerifier : String := "AAAAAAAAAAAAAAAAAAAAAAAAAAAAAAAAAAAAAAAAAAAAAAAAAAAAAAAAAAAAAAAA"

/-- The store a login at instant 0 leaves from the zero tape. -/
def zeroStore : Store := [⟨zeroState, zeroVerifier, some (Minute * 5)⟩]

/-- The outcome of a login at instant 0 on the empty store from the zero tape. -/
def zeroOutcome : Outcome :=
  ⟨.redirect 302 (AuthCodeURL sampleConfig zeroState
      [("code_challenge", generateCodeChallenge zeroVerifier),
       ("code_challenge_method", "S256")]),
    zeroStore, [.redisSet zeroState zeroVerifier (Minute * 5)]⟩

/-- A callback request for the state of the zero tape. -/
def zeroCallback : Request := ⟨[("state", zeroState), ("code", "authcode123")]⟩

/-- A store with a live binding under the state of the zero tape, from an earlier login. -/
def earlierStore : Store := [⟨zeroState, "earlier-verifier", some (Minute * 4)⟩]

/-- A callback request for a second state. -/
def otherCallback : Request := ⟨[("state", "other-state"), ("code", "authcode456")]⟩

/-- A store with two pending flows. -/
def twoFlowStore : Store :=
  [⟨"other-state", "other-verifier", some (Minute * 5)⟩,
   ⟨zeroState, zeroVerifier, some (Minute * 5)⟩]

/-- The claim set the sample environment signs at instant 0. -/
def sampleClaims : MapClaims :=
  [("access_token", .str "up-tok"), ("exp", .num 3600), ("user", .obj [("sub", "\"1\"")])]

/-- The environment in which the token endpoint fails with the error text `err`, all else
equal. -/
def Env.failExchange (env : Env) (err : String) : Env :=
  { env with exchange := fun _ _ => .error err }

/-- The environment in which the userinfo request fails with the error text `err`, all else
equal. -/
def Env.failUserinfo (env : Env) (err : String) : Env :=
  { env with userinfo := fun _ => .error err }

/-- The sample environment with Redis not answering. -/
def downEnv : Env := { sampleEnv with redisUp := false }

/-- The URL of a redirect response. -/
def Response.location : Response → Option AuthURL
  | .redirect _ url => some url
  | _ => none

/-- A logout request for the state of the zero tape. -/
def zeroLogout : Request := ⟨[("token", zeroState)]⟩

/-- The sample environment with a userinfo endpoint that rejects the request: status 401
and a JSON error document as body. -/
def rejectEnv : Env :=
  { sampleEnv with
    userinfo := fun _ => .ok ⟨401, "\x7b\"error\":\"invalid_token\"\x7d"⟩,
    decode := fun _ => .ok [("error", "\"invalid_token\"")] }


/-! ## Lemmas on the base64 encoder -/

theorem encodeAt_urlSafe (i : Nat) : urlSafe (encodeAt i) = true := by
  unfold encodeAt
  by_cases h : i < encodeURL.length
  · rw [List.getD_eq_getElem _ _ h]
    have hall : ∀ c ∈ encodeURL, urlSafe c = true := by decide
    exact hall _ (List.getElem_mem h)
  · rw [List.getD_eq_default _ _ (Nat.le_of_not_lt h)]
    decide

theorem encodeAt_inj : ∀ i < 64, ∀ j < 64, encodeAt i = encodeAt j → i = j := by
  decide

theorem rawURLEncode_length (b : List Byte) :
    (rawURLEncode b).length = (4 * b.length + 2) / 3 := by
  induction b using rawURLEncode.induct with
  | case1 b0 b1 b2 rest ih =>
    simp only [rawURLEncode, List.length_cons, ih]
    omega
  | case2 b0 b1 => simp [rawURLEncode]
  | case3 b0 => simp [rawURLEncode]
  | case4 => simp [rawURLEncode]

theorem rawURLEncode_urlSafe (b : List Byte) : ∀ c ∈ rawURLEncode b, urlSafe c = true := by
  induction b using rawURLEncode.induct with
  | case1 b0 b1 b2 rest ih =>
    intro c hc
    simp only [rawURLEncode, List.mem_cons] at hc
    rcases hc with h | h | h | h | h
    · rw [h]; exact encodeAt_urlSafe _
    · rw [h]; exact encodeAt_urlSafe _
    · rw [h]; exact encodeAt_urlSafe _
    · rw [h]; exact encodeAt_urlSafe _
    · exact ih c h
  | case2 b0 b1 =>
    intro c hc
    simp only [rawURLEncode, List.mem_cons, List.mem_singleton] at hc
    rcases hc with h | h | h
    · rw [h]; exact encodeAt_urlSafe _
    · rw [h]; exact encodeAt_urlSafe _
    · rcases h with h | h
      · rw [h]; exact encodeAt_urlSafe _
      · simp at h
  | case3 b0 =>
    intro c hc
    simp only [rawURLEncode, List.mem_cons, List.mem_singleton] at hc
    rcases hc with h | h | h
    · rw [h]; exact encodeAt_urlSafe _
    · rw [h]; exact encodeAt_urlSafe _
    · simp at h
  | case4 => intro c hc; simp [rawURLEncode] at hc

/-- The 24-bit group of three bytes, as a number. -/
theorem group_eq (b0 b1 b2 : Byte) :
    b0.val <<< 16 ||| b1.val <<< 8 ||| b2.val = 65536 * b0.val + 256 * b1.val + b2.val := by
  have h1 : b1.val * 2 ^ 8 < 2 ^ 16 := by have := b1.isLt; omega
  have h2 : b2.val < 2 ^ 8 := b2.isLt
  have e1 : 2 ^ 16 * b0.val + b1.val * 2 ^ 8 = 2 ^ 16 * b0.val ||| b1.val * 2 ^ 8 :=
    Nat.mul_add_lt_is_or h1 _
  have e2 : 2 ^ 8 * (2 ^ 8 * b0.val + b1.val) + b2.val
      = 2 ^ 8 * (2 ^ 8 * b0.val + b1.val) ||| b2.val := Nat.mul_add_lt_is_or h2 _
  rw [Nat.shiftLeft_eq, Nat.shiftLeft_eq, Nat.mul_comm b0.val (2 ^ 16), ← e1]
  have e3 : 2 ^ 16 * b0.val + b1.val * 2 ^ 8 = 2 ^ 8 * (2 ^ 8 * b0.val + b1.val) := by omega
  rw [e3, ← e2]
  omega

theorem sextet (v k : Nat) : v >>> k &&& 0x3F = v / 2 ^ k % 64 := by
  rw [Nat.shiftRight_eq_div_pow]
  exact Nat.and_pow_two_sub_one_eq_mod _ 6

theorem sextet0 (v : Nat) : v &&& 0x3F = v % 64 :=
  Nat.and_pow_two_sub_one_eq_mod _ 6

theorem group_inj (a0 a1 a2 c0 c1 c2 : Byte)
    (h18 : encodeAt ((a0.val <<< 16 ||| a1.val <<< 8 ||| a2.val) >>> 18 &&& 0x3F)
      = encodeAt ((c0.val <<< 16 ||| c1.val <<< 8 ||| c2.val) >>> 18 &&& 0x3F))
    (h12 : encodeAt ((a0.val <<< 16 ||| a1.val <<< 8 ||| a2.val) >>> 12 &&& 0x3F)
      = encodeAt ((c0.val <<< 16 ||| c1.val <<< 8 ||| c2.val) >>> 12 &&& 0x3F))
    (h6 : encodeAt ((a0.val <<< 16 ||| a1.val <<< 8 ||| a2.val) >>> 6 &&& 0x3F)
      = encodeAt ((c0.val <<< 16 ||| c1.val <<< 8 ||| c2.val) >>> 6 &&& 0x3F))
    (h0 : encodeAt ((a0.val <<< 16 ||| a1.val <<< 8 ||| a2.val) &&& 0x3F)
      = encodeAt ((c0.val <<< 16 ||| c1.val <<< 8 ||| c2.val) &&& 0x3F)) :
    a0 = c0 ∧ a1 = c1 ∧ a2 = c2 := by
  rw [group_eq, group_eq, sextet, sextet] at h18 h12 h6
  rw [group_eq, group_eq, sextet0, sextet0] at h0
  have k18 := encodeAt_inj _ (Nat.mod_lt _ (by decide)) _ (Nat.mod_lt _ (by decide)) h18
  have k12 := encodeAt_inj _ (Nat.mod_lt _ (by decide)) _ (Nat.mod_lt _ (by decide)) h12
  have k6 := encodeAt_inj _ (Nat.mod_lt _ (by decide)) _ (Nat.mod_lt _ (by decide)) h6
  have k0 := encodeAt_inj _ (Nat.mod_lt _ (by decide)) _ (Nat.mod_lt _ (by decide)) h0
  have := a0.isLt; have := a1.isLt; have := a2.isLt
  have := c0.isLt; have := c1.isLt; have := c2.isLt
  refine ⟨Fin.ext ?_, Fin.ext ?_, Fin.ext ?_⟩ <;> omega

/-- On inputs of `3 * k` bytes the encoder is injective. -/
theorem rawURLEncode_inj (k : Nat) : ∀ a c : List Byte, a.length = 3 * k → c.length = 3 * k →
    rawURLEncode a = rawURLEncode c → a = c := by
  induction k with
  | zero =>
    intro a c ha hc _
    rw [List.length_eq_zero.mp (by omega : a.length = 0),
      List.length_eq_zero.mp (by omega : c.length = 0)]
  | succ k ih =>
    intro a c ha hc h
    match a, c, ha, hc, h with
    | a0 :: a1 :: a2 :: ra, c0 :: c1 :: c2 :: rc, ha, hc, h =>
      simp only [rawURLEncode, List.cons.injEq] at h
      obtain ⟨h18, h12, h6, h0, hr⟩ := h
      obtain ⟨e0, e1, e2⟩ := group_inj a0 a1 a2 c0 c1 c2 h18 h12 h6 h0
      have hra : ra.length = 3 * k := by simp only [List.length_cons] at ha; omega
      have hrc : rc.length = 3 * k := by simp only [List.length_cons] at hc; omega
      rw [e0, e1, e2, ih ra rc hra hrc hr]

/-- The first `4 * k` characters encode the first `3 * k` bytes. -/
theorem rawURLEncode_take (k : Nat) : ∀ b : List Byte, 3 * k ≤ b.length →
    (rawURLEncode b).take (4 * k) = rawURLEncode (b.take (3 * k)) := by
  induction k with
  | zero => intro b _; simp [rawURLEncode]
  | succ k ih =>
    intro b hb
    match b, hb with
    | b0 :: b1 :: b2 :: rest, hb =>
      have hr : 3 * k ≤ rest.length := by simp only [List.length_cons] at hb; omega
      have e4 : 4 * (k + 1) = 4 * k + 1 + 1 + 1 + 1 := by omega
      have e3 : 3 * (k + 1) = 3 * k + 1 + 1 + 1 := by omega
      rw [e4, e3]
      simp only [rawURLEncode, List.take_succ_cons, ih rest hr]


/-! ## Lemmas on `randomString` and `Sum256` -/

theorem randomString_ok (n : Nat) (src : Entropy) (h : n ≤ src.length) :
    randomString n src = .ok (String.mk ((rawURLEncode (src.take n)).take n), src.drop n) := by
  have hlen : n ≤ (rawURLEncode (src.take n)).length := by
    rw [rawURLEncode_length, List.length_take, Nat.min_eq_left h]
    omega
  simp [randomString, randRead, sliceTo, h, hlen]

theorem randomString_fatal (n : Nat) (src : Entropy) (h : src.length < n) :
    randomString n src = .error (.fatal "entropy source unavailable") := by
  simp [randomString, randRead, Nat.not_le.mpr h]

theorem randomString_inv {n : Nat} {src src' : Entropy} {s : String}
    (h : randomString n src = .ok (s, src')) :
    n ≤ src.length ∧ s = String.mk ((rawURLEncode (src.take n)).take n) ∧ src' = src.drop n := by
  by_cases hn : n ≤ src.length
  · rw [randomString_ok n src hn] at h
    simp only [Except.ok.injEq, Prod.mk.injEq] at h
    exact ⟨hn, h.1.symm, h.2.symm⟩
  · rw [randomString_fatal n src (Nat.lt_of_not_le hn)] at h
    cases h

theorem randomString_length {n : Nat} {src src' : Entropy} {s : String}
    (h : randomString n src = .ok (s, src')) : s.length = n := by
  obtain ⟨hn, hs, _⟩ := randomString_inv h
  rw [hs, String.length_mk, List.length_take, rawURLEncode_length, List.length_take,
    Nat.min_eq_left hn]
  omega

theorem beBytes_length (w x : Nat) : (beBytes w x).length = w := by
  simp [beBytes]

theorem Sum256_length (msg : List Byte) : (Sum256 msg).length = 32 := by
  simp [Sum256, beBytes_length]

theorem generateCodeChallenge_length (verifier : String) :
    (generateCodeChallenge verifier).length = 43 := by
  simp [generateCodeChallenge, rawURLEncode_length, Sum256_length]

/-! ## Lemmas on `url.Values` and `AuthCodeURL` -/

theorem Values.get_set_self (v : Values) (k x : String) : (v.set k x).get k = x := by
  have hnone : List.find? (fun p => p.1 == k) (List.filter (fun p => p.1 != k) v) = none := by
    rw [List.find?_eq_none]
    intro p hp
    have := (List.mem_filter.mp hp).2
    simpa using this
  simp [Values.get, Values.set, List.find?_append, hnone]

theorem Values.get_set_other (v : Values) (k k' x : String) (h : k' ≠ k) :
    (v.set k x).get k' = v.get k' := by
  have hk : ((k == k') = false) := by simpa using fun e => h e.symm
  have hf : List.find? (fun p => p.1 == k') (List.filter (fun p => p.1 != k) v)
      = List.find? (fun p => p.1 == k') v := by
    induction v with
    | nil => rfl
    | cons p v ih =>
      by_cases hp : p.1 = k
      · have hp' : ¬ p.1 = k' := fun e => h (e.symm.trans hp)
        simp [List.filter_cons, hp, hp', ih, hk]
      · by_cases hq : p.1 = k'
        · simp [List.filter_cons, hp, hq, h]
        · simp [List.filter_cons, hp, hq, ih]
  simp only [Values.get, Values.set, List.find?_append, hf]
  cases List.find? (fun p => p.1 == k') v with
  | some p => rfl
  | none => simp [hk]

/-- The three parameters `handleLogin` adds to the authorization URL. -/
theorem AuthCodeURL_login (cfg : Config) (state challenge : String) (hs : state ≠ "") :
    let url := AuthCodeURL cfg state
      [("code_challenge", challenge), ("code_challenge_method", "S256")]
    url.query.get "state" = state ∧ url.query.get "code_challenge" = challenge
      ∧ url.query.get "code_challenge_method" = "S256" := by
  simp only [AuthCodeURL, List.foldl_cons, List.foldl_nil]
  refine ⟨?_, ?_, ?_⟩
  · rw [Values.get_set_other _ _ _ _ (by decide), Values.get_set_other _ _ _ _ (by decide)]
    simp [hs, Values.get_set_self]
  · rw [Values.get_set_other _ _ _ _ (by decide), Values.get_set_self]
  · rw [Values.get_set_self]

/-! ## Lemmas on the store -/

theorem lookup_key {st : Store} {k : String} {e : Entry} (h : st.lookup k = some e) :
    e.key = k := by
  have := List.find?_some h
  simpa using this

theorem lookup_mem {st : Store} {k : String} {e : Entry} (h : st.lookup k = some e) :
    e ∈ st := List.mem_of_find?_eq_some h

theorem lookup_redisSet (st : Store) (now : Nat) (k v : String) (ttl : Nat) :
    (redisSet true st now k v ttl).1.lookup k
      = some ⟨k, v, if ttl = 0 then none else some (now + ttl)⟩ := by
  simp [redisSet, Store.lookup]

theorem lookup_redisDel (st : Store) (k : String) : (redisDel true st k).1.lookup k = none := by
  simp only [redisDel, Store.lookup, if_true]
  rw [List.find?_eq_none]
  intro e he
  have := (List.mem_filter.mp he).2
  simpa using this

theorem handleCallback_store (cfg : Config) (env : Env) (now : Nat) (st : Store) (r : Request) :
    (handleCallback cfg env now st r).store = st := by
  unfold handleCallback
  simp only
  split
  · rfl
  · split
    · rfl
    · split
      · rfl
      · split
        · rfl
        · split <;> rfl

theorem handleLogout_store_subset (env : Env) (st : Store) (r : Request) :
    ∀ e ∈ (handleLogout env st r).store, e ∈ st := by
  intro e he
  simp only [handleLogout] at he
  split at he
  · unfold redisDel at he
    split at he
    · exact (List.mem_filter.mp he).1
    · exact he
  · exact he

theorem runOps_subset (cfg : Config) (ops : List Op) : ∀ st : Store,
    ∀ e ∈ runOps cfg st ops, e ∈ st := by
  induction ops with
  | nil => intro st e he; exact he
  | cons op ops ih =>
    intro st e he
    have h1 : e ∈ Op.apply cfg st op := ih _ e he
    cases op with
    | callback env now r =>
      simp only [Op.apply, handleCallback_store] at h1
      exact h1
    | logout env r => exact handleLogout_store_subset env st r e h1

theorem runOps_callbacks (cfg : Config) (ops : List Op) : ∀ st : Store,
    (∀ op ∈ ops, op.isCallback = true) → runOps cfg st ops = st := by
  induction ops with
  | nil => intro st _; rfl
  | cons op ops ih =>
    intro st h
    have hop := h op (List.mem_cons_self _ _)
    cases op with
    | callback env now r =>
      show runOps cfg (Op.apply cfg st (.callback env now r)) ops = st
      simp only [Op.apply, handleCallback_store]
      exact ih st (fun o ho => h o (List.mem_cons_of_mem _ ho))
    | logout env r => simp [Op.isCallback] at hop

/-- A callback whose lookup fails answers 401 and makes no call but the lookup. -/
theorem handleCallback_miss (cfg : Config) (env : Env) (now : Nat) (st : Store) (r : Request)
    (err : RedisErr) (h : redisGet env.redisUp st now (r.query.get "state") = .error err) :
    handleCallback cfg env now st r
      = ⟨.error 401 "Invalid or expired state", st, [.redisGet (r.query.get "state")]⟩ := by
  unfold handleCallback
  simp only [h]

/-- A callback whose lookup succeeds calls the token endpoint with the stored verifier and
does not answer 401. -/
theorem handleCallback_hit (cfg : Config) (env : Env) (now : Nat) (st : Store) (r : Request)
    (v : String) (h : redisGet env.redisUp st now (r.query.get "state") = .ok v) :
    (handleCallback cfg env now st r).resp.status ≠ 401 ∧
      (handleCallback cfg env now st r).calls.take 2
        = [.redisGet (r.query.get "state"), .exchange (r.query.get "code") v] := by
  unfold handleCallback
  simp only [h]
  split
  · simp [Response.status]
  · split
    · simp [Response.status]
    · split
      · simp [Response.status]
      · split <;> simp [Response.status]

/-- What a successful run of `handleLogin` did. -/
theorem handleLogin_inv {cfg : Config} {env : Env} {now : Nat} {st : Store} {src src' : Entropy}
    {out : Outcome} (h : handleLogin cfg env now st src = .ok (out, src')) :
    ∃ state verifier src1,
      randomString 32 src = .ok (state, src1) ∧ randomString 64 src1 = .ok (verifier, src') ∧
      out = ⟨.redirect 302 (AuthCodeURL cfg state
              [("code_challenge", generateCodeChallenge verifier),
               ("code_challenge_method", "S256")]),
             (redisSet env.redisUp st now state verifier (Minute * 5)).1,
             [.redisSet state verifier (Minute * 5)]⟩ := by
  unfold handleLogin at h
  split at h
  · cases h
  · rename_i state src1 h1
    split at h
    · cases h
    · rename_i verifier src2 h2
      simp only [Except.ok.injEq, Prod.mk.injEq] at h
      exact ⟨state, verifier, src1, h1, h.2 ▸ h2, h.1.symm⟩

/-- With 96 bytes on the tape `handleLogin` answers. -/
theorem handleLogin_total (cfg : Config) (env : Env) (now : Nat) (st : Store) (src : Entropy)
    (h : 96 ≤ src.length) : ∃ out, handleLogin cfg env now st src = .ok (out, src.drop 96) := by
  have h1 := randomString_ok 32 src (by omega)
  have h2 := randomString_ok 64 (src.drop 32) (by rw [List.length_drop]; omega)
  unfold handleLogin
  simp only [h1, h2, List.drop_drop]
  exact ⟨_, rfl⟩

theorem string_ne_empty_of_length {s : String} {n : Nat} (h : s.length = n + 1) : s ≠ "" := by
  intro e
  rw [e] at h
  simp at h


/-- A lookup finds nothing when no entry under the key is live. -/
theorem redisGet_no_live (up : Bool) (st : Store) (now : Nat) (key : String)
    (h : ∀ e ∈ st, e.key = key → e.live now = false) :
    ∃ err, redisGet up st now key = .error err := by
  unfold redisGet
  cases up with
  | false => exact ⟨.unavailable, rfl⟩
  | true =>
    simp only [if_true]
    cases hl : st.lookup key with
    | none => exact ⟨.nil, rfl⟩
    | some e =>
      have := h e (lookup_mem hl) (lookup_key hl)
      simp [this]

theorem handleCallback_no_live (cfg : Config) (env : Env) (now : Nat) (st : Store) (r : Request)
    (h : ∀ e ∈ st, e.key = r.query.get "state" → e.live now = false) :
    handleCallback cfg env now st r
      = ⟨.error 401 "Invalid or expired state", st, [.redisGet (r.query.get "state")]⟩ := by
  obtain ⟨err, herr⟩ := redisGet_no_live env.redisUp st now _ h
  exact handleCallback_miss cfg env now st r err herr

theorem redisGet_live (st : Store) (now : Nat) (key : String) (e : Entry)
    (hl : st.lookup key = some e) (hlive : e.live now = true) :
    redisGet true st now key = .ok e.value := by
  simp [redisGet, hl, hlive]

theorem mem_redisSet {st : Store} {now : Nat} {k v : String} {ttl : Nat} {e : Entry}
    (he : e ∈ (redisSet true st now k v ttl).1) (hk : e.key = k) :
    e = ⟨k, v, if ttl = 0 then none else some (now + ttl)⟩ := by
  simp only [redisSet, if_true, List.mem_cons, List.mem_filter] at he
  rcases he with h | ⟨_, h⟩
  · exact h
  · simp [hk] at h

/-- Whatever the store holds, the first call of a callback is the store lookup. -/
theorem handleCallback_first_call (cfg : Config) (env : Env) (now : Nat) (st : Store)
    (r : Request) :
    (handleCallback cfg env now st r).calls.head? = some (.redisGet (r.query.get "state")) := by
  unfold handleCallback
  simp only
  split
  · rfl
  · split
    · rfl
    · split
      · rfl
      · split
        · rfl
        · split <;> rfl

theorem five_minutes : Minute * 5 = 300 * Second := by
  simp [Minute]; omega


theorem lookup_filter_other (st : Store) (k k' : String) (h : k' ≠ k) :
    Store.lookup (st.filter (fun e => e.key != k)) k' = st.lookup k' := by
  unfold Store.lookup
  induction st with
  | nil => rfl
  | cons e st ih =>
    by_cases he : e.key = k
    · have he' : ¬ e.key = k' := fun x => h (x.symm.trans he)
      have hb : (e.key == k') = false := by simpa using he'
      rw [List.filter_cons_of_neg (by simp [he]), List.find?_cons_of_neg _ (by simp [hb]), ih]
    · rw [List.filter_cons_of_pos (by simp [he])]
      by_cases hq : e.key = k'
      · rw [List.find?_cons_of_pos _ (by simp [hq]), List.find?_cons_of_pos _ (by simp [hq])]
      · rw [List.find?_cons_of_neg _ (by simp [hq]), List.find?_cons_of_neg _ (by simp [hq]), ih]

/-- The calls of a callback: the signing call, if any, carries the three-member claim set. -/
theorem handleCallback_sign (cfg : Config) (env : Env) (now : Nat) (st : Store) (r : Request)
    (claims : MapClaims) (secret : String)
    (h : Call.sign claims secret ∈ (handleCallback cfg env now st r).calls) :
    ∃ (token : Token) (userInfo : UserInfo),
      claims = [("access_token", .str token.accessToken), ("exp", .num (unix (now + Hour))),
        ("user", .obj userInfo)] ∧ secret = cfg.jwtSecret := by
  unfold handleCallback at h
  simp only at h
  split at h
  · simp at h
  · split at h
    · simp at h
    · rename_i token _
      split at h
      · simp at h
      · split at h
        · simp at h
        · rename_i userInfo _
          split at h
          · simp at h
            exact ⟨token, userInfo, h.1, h.2⟩
          · simp at h
            exact ⟨token, userInfo, h.1, h.2⟩

theorem unix_add_hour (now : Nat) : unix (now + Hour) = unix now + 3600 := by
  simp only [unix, Hour, Minute, Second]
  have : (now + 60 * (60 * 1000000000)) / 1000000000 = now / 1000000000 + 3600 := by omega
  rw [this]
  push_cast
  rfl


/-! ## Test vectors -/

/-- The digest of "abc" (FIPS 180-2, appendix B.1). -/
theorem Sum256_abc : Sum256 (stringBytes "abc") =
    [0xba, 0x78, 0x16, 0xbf, 0x8f, 0x01, 0xcf, 0xea, 0x41, 0x41, 0x40, 0xde, 0x5d, 0xae, 0x22,
     0x23, 0xb0, 0x03, 0x61, 0xa3, 0x96, 0x17, 0x7a, 0x9c, 0xb4, 0x10, 0xff, 0x61, 0xf2, 0x00,
     0x15, 0xad] := by
  decide

set_option maxRecDepth 4000 in
/-- The verifier and challenge of RFC 7636, appendix B. -/
theorem generateCodeChallenge_rfc7636 :
    generateCodeChallenge "dBjftJeZ4CVP-mB92K27uhbUJU1p1r_wW1gFWFOEjXk"
      = "E9Melhoa2OwvFrEMTJguCHaoeK1t8URWbuGJSstw-cM" := by
  decide


/-! ## Lemmas on the outcomes of `handleCallback` and `handleLogout` -/

/-- When a lookup fails: Redis does not answer, or the key is absent, or its entry is no
longer live. -/
theorem redisGet_error_iff (up : Bool) (st : Store) (now : Nat) (key : String) :
    (∃ err, redisGet up st now key = .error err) ↔
      (up = false ∨ st.lookup key = none ∨ ∃ e, st.lookup key = some e ∧ e.live now = false) := by
  unfold redisGet
  cases up with
  | false => simp
  | true =>
    cases hl : st.lookup key with
    | none => simp
    | some e =>
      cases hlive : e.live now <;> simp [hlive]

theorem redisGet_ok_or_error (up : Bool) (st : Store) (now : Nat) (key : String) :
    (∃ v, redisGet up st now key = .ok v) ∨ (∃ err, redisGet up st now key = .error err) := by
  cases h : redisGet up st now key with
  | ok v => exact Or.inl ⟨v, rfl⟩
  | error err => exact Or.inr ⟨err, rfl⟩

theorem handleCallback_exchange_error (cfg : Config) (env : Env) (now : Nat) (st : Store)
    (r : Request) (v err : String)
    (hget : redisGet env.redisUp st now (r.query.get "state") = .ok v)
    (hex : env.exchange (r.query.get "code") v = .error err) :
    (handleCallback cfg env now st r).resp = .error 500 ("Failed to exchange token: " ++ err) := by
  unfold handleCallback
  simp only [hget, hex]

theorem handleCallback_userinfo_error (cfg : Config) (env : Env) (now : Nat) (st : Store)
    (r : Request) (v err : String) (tok : Token)
    (hget : redisGet env.redisUp st now (r.query.get "state") = .ok v)
    (hex : env.exchange (r.query.get "code") v = .ok tok)
    (hui : env.userinfo tok = .error err) :
    (handleCallback cfg env now st r).resp = .error 500 ("Failed to get user info: " ++ err) := by
  unfold handleCallback
  simp only [hget, hex, hui]

theorem handleCallback_decode_error (cfg : Config) (env : Env) (now : Nat) (st : Store)
    (r : Request) (v : String) (resp : HTTPResponse) (err : String) (tok : Token)
    (hget : redisGet env.redisUp st now (r.query.get "state") = .ok v)
    (hex : env.exchange (r.query.get "code") v = .ok tok)
    (hui : env.userinfo tok = .ok resp) (hde : env.decode resp.body = .error err) :
    (handleCallback cfg env now st r).resp = .error 500 "Failed to parse user info" := by
  unfold handleCallback
  simp only [hget, hex, hui, hde]

theorem handleCallback_sign_error (cfg : Config) (env : Env) (now : Nat) (st : Store)
    (r : Request) (v : String) (resp : HTTPResponse) (err : String) (tok : Token)
    (u : UserInfo)
    (hget : redisGet env.redisUp st now (r.query.get "state") = .ok v)
    (hex : env.exchange (r.query.get "code") v = .ok tok)
    (hui : env.userinfo tok = .ok resp) (hde : env.decode resp.body = .ok u)
    (hsg : env.sign [("access_token", .str tok.accessToken), ("exp", .num (unix (now + Hour))),
      ("user", .obj u)] cfg.jwtSecret = .error err) :
    (handleCallback cfg env now st r).resp = .error 500 "Failed to create JWT token" := by
  unfold handleCallback
  simp only [hget, hex, hui, hde, hsg]

theorem handleCallback_success (cfg : Config) (env : Env) (now : Nat) (st : Store)
    (r : Request) (v : String) (resp : HTTPResponse) (jwt : String) (tok : Token)
    (u : UserInfo)
    (hget : redisGet env.redisUp st now (r.query.get "state") = .ok v)
    (hex : env.exchange (r.query.get "code") v = .ok tok)
    (hui : env.userinfo tok = .ok resp) (hde : env.decode resp.body = .ok u)
    (hsg : env.sign [("access_token", .str tok.accessToken), ("exp", .num (unix (now + Hour))),
      ("user", .obj u)] cfg.jwtSecret = .ok jwt) :
    handleCallback cfg env now st r
      = ⟨.json [("jwt_token", .str jwt), ("user", .obj u)], st,
          [.redisGet (r.query.get "state"), .exchange (r.query.get "code") v,
            .userinfo tok.accessToken,
            .sign [("access_token", .str tok.accessToken), ("exp", .num (unix (now + Hour))),
              ("user", .obj u)] cfg.jwtSecret]⟩ := by
  unfold handleCallback
  simp only [hget, hex, hui, hde, hsg]

/-- A callback that answers 200 passed every step. -/
theorem handleCallback_status_200 (cfg : Config) (env : Env) (now : Nat) (st : Store)
    (r : Request) (h : (handleCallback cfg env now st r).resp.status = 200) :
    ∃ (v : String) (resp : HTTPResponse) (jwt : String) (tok : Token) (u : UserInfo),
      redisGet env.redisUp st now (r.query.get "state") = .ok v ∧
      env.exchange (r.query.get "code") v = .ok tok ∧
      env.userinfo tok = .ok resp ∧ env.decode resp.body = .ok u ∧
      env.sign [("access_token", .str tok.accessToken), ("exp", .num (unix (now + Hour))),
        ("user", .obj u)] cfg.jwtSecret = .ok jwt := by
  unfold handleCallback at h
  simp only at h
  split at h
  · simp [Response.status] at h
  · rename_i v hget
    split at h
    · simp [Response.status] at h
    · rename_i tok hex
      split at h
      · simp [Response.status] at h
      · rename_i resp hui
        split at h
        · simp [Response.status] at h
        · rename_i u hde
          split at h
          · simp [Response.status] at h
          · rename_i jwt hsg
            exact ⟨v, resp, jwt, tok, u, hget, hex, hui, hde, hsg⟩

/-- The statuses a callback can answer. -/
theorem handleCallback_status_range (cfg : Config) (env : Env) (now : Nat) (st : Store)
    (r : Request) :
    (handleCallback cfg env now st r).resp.status = 200 ∨
    (handleCallback cfg env now st r).resp.status = 401 ∨
    (handleCallback cfg env now st r).resp.status = 500 := by
  unfold handleCallback
  simp only
  split
  · simp [Response.status]
  · split
    · simp [Response.status]
    · split
      · simp [Response.status]
      · split
        · simp [Response.status]
        · split <;> simp [Response.status]

theorem string_append_left_cancel (p a b : String) : p ++ a = p ++ b ↔ a = b := by
  constructor
  · intro h
    have hd := congrArg String.data h
    simp only [String.data_append] at hd
    exact String.ext (List.append_cancel_left hd)
  · intro h
    rw [h]

theorem handleLogout_resp (env : Env) (st : Store) (r : Request) :
    (handleLogout env st r).resp = .text "Logged out successfully" := by
  unfold handleLogout
  simp only
  split <;> rfl

/-- The store a logout leaves: the entries under the token filtered out when the token is
not empty and Redis answers, the store as it was otherwise. -/
theorem handleLogout_store (env : Env) (st : Store) (r : Request) :
    (handleLogout env st r).store
      = if r.query.get "token" ≠ "" ∧ env.redisUp = true
        then st.filter (fun e => e.key != r.query.get "token") else st := by
  unfold handleLogout redisDel
  by_cases ht : r.query.get "token" = ""
  · simp [ht]
  · cases hup : env.redisUp <;> simp [ht]

theorem filter_key_idem (st : Store) (k : String) :
    (st.filter (fun e => e.key != k)).filter (fun e => e.key != k)
      = st.filter (fun e => e.key != k) := by
  rw [List.filter_filter]
  simp


/-! ## Lemmas on the whole query of the redirect and on the origin of the signed claims -/

theorem Values.mem_set {v : Values} {k x : String} {p : String × String}
    (h : p ∈ v.set k x) : p ∈ v ∨ p = (k, x) := by
  simp only [Values.set, List.mem_append, List.mem_filter, List.mem_singleton] at h
  rcases h with ⟨hp, _⟩ | hp
  · exact Or.inl hp
  · exact Or.inr hp

/-- Every parameter of the authorization URL that `handleLogin` builds. -/
theorem AuthCodeURL_login_mem (cfg : Config) (state challenge : String)
    (p : String × String)
    (h : p ∈ (AuthCodeURL cfg state
      [("code_challenge", challenge), ("code_challenge_method", "S256")]).query) :
    p = ("response_type", "code") ∨ p = ("client_id", cfg.clientID) ∨
    p = ("redirect_uri", cfg.redirectURL) ∨ p = ("scope", " ".intercalate cfg.scopes) ∨
    p = ("state", state) ∨ p = ("code_challenge", challenge) ∨
    p = ("code_challenge_method", "S256") := by
  simp only [AuthCodeURL, List.foldl_cons, List.foldl_nil] at h
  rcases Values.mem_set h with h | h
  · rcases Values.mem_set h with h | h
    · have h3 : p ∈ (if cfg.scopes.length > 0 then
          Values.set (if (cfg.redirectURL != "") = true then
            Values.set [("response_type", "code"), ("client_id", cfg.clientID)]
              "redirect_uri" cfg.redirectURL
            else [("response_type", "code"), ("client_id", cfg.clientID)])
            "scope" (" ".intercalate cfg.scopes)
          else (if (cfg.redirectURL != "") = true then
            Values.set [("response_type", "code"), ("client_id", cfg.clientID)]
              "redirect_uri" cfg.redirectURL
            else [("response_type", "code"), ("client_id", cfg.clientID)]))
          ∨ p = ("state", state) := by
        split at h
        · exact Values.mem_set h
        · exact Or.inl h
      rcases h3 with h3 | h3
      · have h2 : p ∈ (if (cfg.redirectURL != "") = true then
            Values.set [("response_type", "code"), ("client_id", cfg.clientID)]
              "redirect_uri" cfg.redirectURL
            else [("response_type", "code"), ("client_id", cfg.clientID)])
            ∨ p = ("scope", " ".intercalate cfg.scopes) := by
          split at h3
          · exact Values.mem_set h3
          · exact Or.inl h3
        rcases h2 with h2 | h2
        · have h1 : p ∈ ([("response_type", "code"), ("client_id", cfg.clientID)] : Values)
              ∨ p = ("redirect_uri", cfg.redirectURL) := by
            split at h2
            · exact Values.mem_set h2
            · exact Or.inl h2
          rcases h1 with h1 | h1
          · simp only [List.mem_cons, List.mem_singleton, List.not_mem_nil, or_false] at h1
            rcases h1 with h1 | h1
            · exact Or.inl h1
            · exact Or.inr (Or.inl h1)
          · exact Or.inr (Or.inr (Or.inl h1))
        · exact Or.inr (Or.inr (Or.inr (Or.inl h2)))
      · exact Or.inr (Or.inr (Or.inr (Or.inr (Or.inl h3))))
    · exact Or.inr (Or.inr (Or.inr (Or.inr (Or.inr (Or.inl h)))))
  · exact Or.inr (Or.inr (Or.inr (Or.inr (Or.inr (Or.inr h)))))

theorem AuthCodeURL_endpoint (cfg : Config) (state : String) (opts : List (String × String)) :
    (AuthCodeURL cfg state opts).endpoint = cfg.authURL := rfl

/-- Where a signed claim set comes from: the token is the one the exchange returned for
the stored verifier, the document the decoded body of the userinfo response for it. -/
theorem handleCallback_sign_origin (cfg : Config) (env : Env) (now : Nat) (st : Store)
    (r : Request) (claims : MapClaims) (secret : String)
    (h : Call.sign claims secret ∈ (handleCallback cfg env now st r).calls) :
    ∃ (v : String) (token : Token) (resp : HTTPResponse) (userInfo : UserInfo),
      redisGet env.redisUp st now (r.query.get "state") = .ok v ∧
      env.exchange (r.query.get "code") v = .ok token ∧
      env.userinfo token = .ok resp ∧ env.decode resp.body = .ok userInfo ∧
      claims = [("access_token", .str token.accessToken), ("exp", .num (unix (now + Hour))),
        ("user", .obj userInfo)] ∧ secret = cfg.jwtSecret := by
  unfold handleCallback at h
  simp only at h
  split at h
  · simp at h
  · rename_i v hget
    split at h
    · simp at h
    · rename_i token hex
      split at h
      · simp at h
      · rename_i resp hui
        split at h
        · simp at h
        · rename_i userInfo hde
          split at h
          · simp at h
            exact ⟨v, token, resp, userInfo, hget, hex, hui, hde, h.1, h.2⟩
          · simp at h
            exact ⟨v, token, resp, userInfo, hget, hex, hui, hde, h.1, h.2⟩

/-- The status code of the userinfo response is not read: two environments that differ in
it only are served alike. -/
theorem handleCallback_ignores_userinfo_status (cfg : Config) (env : Env) (now : Nat)
    (st : Store) (r : Request) (code : Nat) :
    handleCallback cfg
        { env with userinfo := fun t => (env.userinfo t).map (fun x => ⟨code, x.body⟩) }
        now st r
      = handleCallback cfg env now st r := by
  unfold handleCallback
  simp only
  split
  · rfl
  · split
    · rfl
    · rename_i token _
      cases hu : env.userinfo token with
      | error e => simp [Except.map]
      | ok resp => simp [Except.map]


/-! ## C1: the lookup does not consume the binding -/

/-- C1 (counterexample): on the store a login leaves, a first callback for the state passes
the lookup and reaches the token endpoint, and a second callback for the same state, with
nothing in between, is not rejected: it answers 200 after a second upstream exchange with the
same verifier. -/
theorem callback_replay_counterexample :
    (handleLogin sampleConfig sampleEnv 0 [] zeroTape).toOption.map (fun o => o.1.store)
      = some zeroStore ∧
    (handleCallback sampleConfig sampleEnv 1 zeroStore zeroCallback).calls.take 2
      = [.redisGet zeroState, .exchange "authcode123" zeroVerifier] ∧
    (handleCallback sampleConfig sampleEnv 2
        (handleCallback sampleConfig sampleEnv 1 zeroStore zeroCallback).store
        zeroCallback).resp.status = 200 ∧
    (handleCallback sampleConfig sampleEnv 2
        (handleCallback sampleConfig sampleEnv 1 zeroStore zeroCallback).store
        zeroCallback).calls.take 2
      = [.redisGet zeroState, .exchange "authcode123" zeroVerifier] := by
  decide

/-- C1 (amended): `handleCallback` reads the binding and leaves the store as it was.  After a
callback that found the verifier `v` under the state, and any number of further callbacks,
a callback with the same state, while Redis answers and the entry is still live, is not
answered 401: it finds `v` again and calls the token endpoint with it. -/
theorem callback_keeps_binding (cfg : Config) (st : Store) (env1 : Env) (now1 : Nat)
    (r1 : Request) (v : String)
    (hfirst : redisGet env1.redisUp st now1 (r1.query.get "state") = .ok v)
    (ops : List Op) (hops : ∀ op ∈ ops, op.isCallback = true)
    (env2 : Env) (now2 : Nat) (r2 : Request)
    (hstate : r2.query.get "state" = r1.query.get "state")
    (hup : env2.redisUp = true)
    (hlive : ∀ e, st.lookup (r1.query.get "state") = some e → e.live now2 = true) :
    (handleCallback cfg env1 now1 st r1).store = st ∧
    runOps cfg (handleCallback cfg env1 now1 st r1).store ops = st ∧
    (handleCallback cfg env2 now2
        (runOps cfg (handleCallback cfg env1 now1 st r1).store ops) r2).resp.status ≠ 401 ∧
    (handleCallback cfg env2 now2
        (runOps cfg (handleCallback cfg env1 now1 st r1).store ops) r2).calls.take 2
      = [.redisGet (r2.query.get "state"), .exchange (r2.query.get "code") v] := by
  have hst := handleCallback_store cfg env1 now1 st r1
  have hrun : runOps cfg (handleCallback cfg env1 now1 st r1).store ops = st := by
    rw [hst]; exact runOps_callbacks cfg ops st hops
  have hget : redisGet env2.redisUp st now2 (r2.query.get "state") = .ok v := by
    rw [hup, hstate]
    unfold redisGet at hfirst
    split at hfirst
    · cases hl : st.lookup (r1.query.get "state") with
      | none => simp [hl] at hfirst
      | some e =>
        simp only [hl] at hfirst
        split at hfirst
        · rw [redisGet_live st now2 _ e hl (hlive e hl)]
          exact hfirst
        · cases hfirst
    · cases hfirst
  rw [hrun]
  exact ⟨hst, rfl, handleCallback_hit cfg env2 now2 st r2 v hget⟩

/-- Witness of `callback_keeps_binding`: two callbacks on the store of the zero tape. -/
theorem callback_keeps_binding_witness :
    redisGet sampleEnv.redisUp zeroStore 1 (zeroCallback.query.get "state") = .ok zeroVerifier ∧
    (handleCallback sampleConfig sampleEnv 1 zeroStore zeroCallback).store = zeroStore ∧
    runOps sampleConfig (handleCallback sampleConfig sampleEnv 1 zeroStore zeroCallback).store
      [.callback sampleEnv 2 zeroCallback] = zeroStore ∧
    (handleCallback sampleConfig sampleEnv 3
        (runOps sampleConfig (handleCallback sampleConfig sampleEnv 1 zeroStore zeroCallback).store
          [.callback sampleEnv 2 zeroCallback]) zeroCallback).resp.status ≠ 401 ∧
    (handleCallback sampleConfig sampleEnv 3
        (runOps sampleConfig (handleCallback sampleConfig sampleEnv 1 zeroStore zeroCallback).store
          [.callback sampleEnv 2 zeroCallback]) zeroCallback).calls.take 2
      = [.redisGet (zeroCallback.query.get "state"),
          .exchange (zeroCallback.query.get "code") zeroVerifier] :=
  ⟨rfl,
    callback_keeps_binding sampleConfig zeroStore sampleEnv 1 zeroCallback zeroVerifier
      rfl [.callback sampleEnv 2 zeroCallback]
      (by intro op hop; simp only [List.mem_singleton] at hop; rw [hop]; rfl)
      sampleEnv 3 zeroCallback rfl rfl
      (by intro e he; have : e = ⟨zeroState, zeroVerifier, some (Minute * 5)⟩ := by
            have h0 : zeroStore.lookup (zeroCallback.query.get "state")
              = some ⟨zeroState, zeroVerifier, some (Minute * 5)⟩ := by decide
            rw [h0] at he; exact (Option.some.inj he).symm
          rw [this]; decide)⟩

/-! ## C2: the challenge is the transform of the stored verifier -/

/-- C2: a run of `handleLogin` with 96 random bytes answers a redirect whose
`code_challenge` is the unpadded URL-safe base64 text of the SHA-256 digest of the verifier
that the run writes to the store under the `state` of the same redirect, and whose
`code_challenge_method` is `S256`. -/
theorem login_challenge_is_transform_of_stored_verifier (cfg : Config) (env : Env) (now : Nat)
    (st : Store) (src : Entropy) (h : 96 ≤ src.length) :
    ∃ out state verifier url,
      handleLogin cfg env now st src = .ok (out, src.drop 96) ∧
      out.resp = .redirect 302 url ∧
      out.calls = [.redisSet state verifier (Minute * 5)] ∧
      (env.redisUp = true →
        ∃ e, out.store.lookup state = some e ∧ e.value = verifier) ∧
      url.query.get "state" = state ∧
      url.query.get "code_challenge"
        = String.mk (rawURLEncode (Sum256 (stringBytes verifier))) ∧
      url.query.get "code_challenge_method" = "S256" := by
  obtain ⟨out, hout⟩ := handleLogin_total cfg env now st src h
  obtain ⟨state, verifier, src1, h1, h2, ho⟩ := handleLogin_inv hout
  have hne : state ≠ "" := string_ne_empty_of_length (randomString_length h1)
  obtain ⟨u1, u2, u3⟩ := AuthCodeURL_login cfg state (generateCodeChallenge verifier) hne
  refine ⟨out, state, verifier, _, hout, ?_, ?_, ?_, u1, u2, u3⟩
  · rw [ho]
  · rw [ho]
  · intro hup
    rw [ho, hup]
    exact ⟨_, lookup_redisSet st now state verifier (Minute * 5), rfl⟩

/-- Witness of `login_challenge_is_transform_of_stored_verifier`: the zero tape. -/
theorem login_challenge_is_transform_of_stored_verifier_witness :
    96 ≤ zeroTape.length ∧
    ∃ out state verifier url,
      handleLogin sampleConfig sampleEnv 0 [] zeroTape = .ok (out, zeroTape.drop 96) ∧
      out.resp = .redirect 302 url ∧
      out.calls = [.redisSet state verifier (Minute * 5)] ∧
      (sampleEnv.redisUp = true →
        ∃ e, out.store.lookup state = some e ∧ e.value = verifier) ∧
      url.query.get "state" = state ∧
      url.query.get "code_challenge"
        = String.mk (rawURLEncode (Sum256 (stringBytes verifier))) ∧
      url.query.get "code_challenge_method" = "S256" :=
  ⟨by decide,
    login_challenge_is_transform_of_stored_verifier sampleConfig sampleEnv 0 [] zeroTape
      (by decide)⟩

/-! ## C3: no live entry, no outbound call -/

/-- C3: when the store holds no live entry under the `state` parameter of the request (the
empty string when the parameter is missing), `handleCallback` answers 401 "Invalid or
expired state", leaves the store alone, and its only call is the store lookup: no token
exchange, no userinfo request, no signing.  On every store the lookup is the first call. -/
theorem callback_without_live_entry_is_401 (cfg : Config) (env : Env) (now : Nat) (st : Store)
    (r : Request) (h : ∀ e ∈ st, e.key = r.query.get "state" → e.live now = false) :
    (handleCallback cfg env now st r).resp = .error 401 "Invalid or expired state" ∧
    (handleCallback cfg env now st r).store = st ∧
    (handleCallback cfg env now st r).calls = [.redisGet (r.query.get "state")] ∧
    (∀ code v, Call.exchange code v ∉ (handleCallback cfg env now st r).calls) ∧
    (∀ tok, Call.userinfo tok ∉ (handleCallback cfg env now st r).calls) ∧
    (∀ claims secret, Call.sign claims secret ∉ (handleCallback cfg env now st r).calls) ∧
    (∀ st' : Store, (handleCallback cfg env now st' r).calls.head?
      = some (.redisGet (r.query.get "state"))) := by
  refine ⟨?_, ?_, ?_, ?_, ?_, ?_, fun st' => handleCallback_first_call cfg env now st' r⟩ <;>
    rw [handleCallback_no_live cfg env now st r h] <;> simp

/-- Witness of `callback_without_live_entry_is_401`: a request without a `state` parameter
on the store of the zero tape. -/
theorem callback_without_live_entry_is_401_witness :
    (∀ e ∈ zeroStore, e.key = (Request.mk [("code", "c")]).query.get "state"
      → e.live 1 = false) ∧
    (handleCallback sampleConfig sampleEnv 1 zeroStore ⟨[("code", "c")]⟩).resp
      = .error 401 "Invalid or expired state" ∧
    (handleCallback sampleConfig sampleEnv 1 zeroStore ⟨[("code", "c")]⟩).calls
      = [.redisGet ""] :=
  have hyp : ∀ e ∈ zeroStore, e.key = (Request.mk [("code", "c")]).query.get "state"
      → e.live 1 = false := by decide
  have k := callback_without_live_entry_is_401 sampleConfig sampleEnv 1 zeroStore
    ⟨[("code", "c")]⟩ hyp
  ⟨hyp, k.1, k.2.2.1⟩


/-! ## C4: the binding lives five minutes -/

/-- C4: a run of `handleLogin` at instant `now`, Redis answering, writes the binding with
expiry `now + 5 min` (300 s, between 2 and 10 minutes): a lookup up to that instant returns
the verifier, and a `handleCallback` for that state at any later instant, after any
callbacks and logouts in between, answers 401 with the store lookup as its only call. -/
theorem login_binding_expires_after_five_minutes (cfg : Config) (env : Env) (now : Nat)
    (st : Store) (src : Entropy) (h : 96 ≤ src.length) (hup : env.redisUp = true) :
    ∃ out state verifier,
      handleLogin cfg env now st src = .ok (out, src.drop 96) ∧
      out.calls = [.redisSet state verifier (Minute * 5)] ∧
      out.store.lookup state = some ⟨state, verifier, some (now + 300 * Second)⟩ ∧
      2 * Minute ≤ Minute * 5 ∧ Minute * 5 ≤ 10 * Minute ∧
      (∀ t, t ≤ now + 300 * Second → redisGet true out.store t state = .ok verifier) ∧
      ∀ (ops : List Op) (env' : Env) (t : Nat) (r : Request),
        now + 300 * Second < t → r.query.get "state" = state →
        handleCallback cfg env' t (runOps cfg out.store ops) r
          = ⟨.error 401 "Invalid or expired state", runOps cfg out.store ops,
              [.redisGet state]⟩ := by
  obtain ⟨out, hout⟩ := handleLogin_total cfg env now st src h
  obtain ⟨state, verifier, src1, h1, h2, ho⟩ := handleLogin_inv hout
  have hpos : Minute * 5 ≠ 0 := by decide
  have hlk : out.store.lookup state = some ⟨state, verifier, some (now + 300 * Second)⟩ := by
    rw [ho, hup]
    rw [lookup_redisSet, if_neg hpos, five_minutes]
  refine ⟨out, state, verifier, hout, by rw [ho], hlk, by decide, by decide, ?_, ?_⟩
  · intro t ht
    rw [redisGet_live out.store t state _ hlk (by simpa [Entry.live] using ht)]
  · intro ops env' t r ht hr
    have hdead : ∀ e ∈ runOps cfg out.store ops, e.key = r.query.get "state"
        → e.live t = false := by
      intro e he hk
      have hmem : e ∈ (redisSet true st now state verifier (Minute * 5)).1 := by
        have := runOps_subset cfg ops out.store e he
        rw [ho, hup] at this
        exact this
      rw [mem_redisSet hmem (hk.trans hr), if_neg hpos, five_minutes]
      simpa [Entry.live] using ht
    rw [handleCallback_no_live cfg env' t _ r hdead, hr]

/-- Witness of `login_binding_expires_after_five_minutes`: the zero tape at instant 0. -/
theorem login_binding_expires_after_five_minutes_witness :
    96 ≤ zeroTape.length ∧ sampleEnv.redisUp = true ∧
    ∃ out state verifier,
      handleLogin sampleConfig sampleEnv 0 [] zeroTape = .ok (out, zeroTape.drop 96) ∧
      out.calls = [.redisSet state verifier (Minute * 5)] ∧
      out.store.lookup state = some ⟨state, verifier, some (0 + 300 * Second)⟩ ∧
      2 * Minute ≤ Minute * 5 ∧ Minute * 5 ≤ 10 * Minute ∧
      (∀ t, t ≤ 0 + 300 * Second → redisGet true out.store t state = .ok verifier) ∧
      ∀ (ops : List Op) (env' : Env) (t : Nat) (r : Request),
        0 + 300 * Second < t → r.query.get "state" = state →
        handleCallback sampleConfig env' t (runOps sampleConfig out.store ops) r
          = ⟨.error 401 "Invalid or expired state", runOps sampleConfig out.store ops,
              [.redisGet state]⟩ :=
  ⟨by decide, rfl,
    login_binding_expires_after_five_minutes sampleConfig sampleEnv 0 [] zeroTape
      (by decide) rfl⟩

/-! ## C5: the verifier stays out of the redirect -/

/-- C5: whatever the random source delivers, when `handleLogin` answers, its answer is a
redirect to the configured endpoint and its one call writes the verifier to the store.
Every parameter of the redirect is one of the four that come from the configuration alone
or one of `state`, `code_challenge`, `code_challenge_method`, and the values of these three
neither equal the verifier nor contain it (they are 32, 43 and 4 characters long, the
verifier 64). -/
theorem login_redirect_never_carries_verifier (cfg : Config) (env : Env) (now : Nat)
    (st : Store) (src src' : Entropy) (out : Outcome)
    (h : handleLogin cfg env now st src = .ok (out, src')) :
    ∃ state verifier url,
      out.resp = .redirect 302 url ∧
      out.calls = [.redisSet state verifier (Minute * 5)] ∧
      verifier.length = 64 ∧
      (∀ key ∈ ["state", "code_challenge", "code_challenge_method"],
        url.query.get key ≠ verifier ∧ ¬ verifier.data <:+: (url.query.get key).data) ∧
      url.endpoint = cfg.authURL ∧
      (∀ p ∈ url.query,
        p = ("response_type", "code") ∨ p = ("client_id", cfg.clientID) ∨
        p = ("redirect_uri", cfg.redirectURL) ∨
        p = ("scope", " ".intercalate cfg.scopes) ∨
        p = ("state", state) ∨ p = ("code_challenge", generateCodeChallenge verifier) ∨
        p = ("code_challenge_method", "S256")) ∧
      (∀ p ∈ url.query, p.1 ∈ ["state", "code_challenge", "code_challenge_method"] →
        p.2 ≠ verifier ∧ ¬ verifier.data <:+: p.2.data) ∧
      (∀ p ∈ url.query, p.1 ∈ ["response_type", "client_id", "redirect_uri", "scope"] ∨
        p.1 ∈ ["state", "code_challenge", "code_challenge_method"]) := by
  obtain ⟨state, verifier, src1, h1, h2, ho⟩ := handleLogin_inv h
  have hs : state.length = 32 := randomString_length h1
  have hv : verifier.length = 64 := randomString_length h2
  have hne : state ≠ "" := string_ne_empty_of_length hs
  obtain ⟨u1, u2, u3⟩ := AuthCodeURL_login cfg state (generateCodeChallenge verifier) hne
  have short : ∀ s : String, s.length < 64 → s ≠ verifier ∧ ¬ verifier.data <:+: s.data := by
    intro s hlen
    constructor
    · intro e; rw [e, hv] at hlen; omega
    · intro hin
      have := hin.length_le
      simp only [String.length] at hlen hv
      omega
  have hmem := AuthCodeURL_login_mem cfg state (generateCodeChallenge verifier)
  refine ⟨state, verifier, _, by rw [ho], by rw [ho], hv, ?_, rfl, hmem, ?_, ?_⟩
  · intro key hkey
    simp only [List.mem_cons, List.mem_singleton, List.not_mem_nil, or_false] at hkey
    rcases hkey with rfl | rfl | rfl
    · rw [u1]; exact short _ (by rw [hs]; omega)
    · rw [u2]; exact short _ (by rw [generateCodeChallenge_length]; omega)
    · rw [u3]; exact short _ (by decide)
  · intro p hp hkey
    simp only [List.mem_cons, List.mem_singleton, List.not_mem_nil, or_false] at hkey
    rcases hmem p hp with e | e | e | e | e | e | e
    · rw [e] at hkey; simp at hkey
    · rw [e] at hkey; simp at hkey
    · rw [e] at hkey; simp at hkey
    · rw [e] at hkey; simp at hkey
    · rw [e]; exact short _ (by rw [hs]; omega)
    · rw [e]; exact short _ (by rw [generateCodeChallenge_length]; omega)
    · rw [e]; exact short _ (by decide)
  · intro p hp
    rcases hmem p hp with e | e | e | e | e | e | e <;> rw [e] <;> simp

/-- Witness of `login_redirect_never_carries_verifier`: the zero tape. -/
theorem login_redirect_never_carries_verifier_witness :
    handleLogin sampleConfig sampleEnv 0 [] zeroTape = .ok (zeroOutcome, []) ∧
    ∃ state verifier url,
      zeroOutcome.resp = .redirect 302 url ∧
      zeroOutcome.calls = [.redisSet state verifier (Minute * 5)] ∧
      verifier.length = 64 ∧
      (∀ key ∈ ["state", "code_challenge", "code_challenge_method"],
        url.query.get key ≠ verifier ∧ ¬ verifier.data <:+: (url.query.get key).data) ∧
      url.endpoint = sampleConfig.authURL ∧
      (∀ p ∈ url.query,
        p = ("response_type", "code") ∨ p = ("client_id", sampleConfig.clientID) ∨
        p = ("redirect_uri", sampleConfig.redirectURL) ∨
        p = ("scope", " ".intercalate sampleConfig.scopes) ∨
        p = ("state", state) ∨ p = ("code_challenge", generateCodeChallenge verifier) ∨
        p = ("code_challenge_method", "S256")) ∧
      (∀ p ∈ url.query, p.1 ∈ ["state", "code_challenge", "code_challenge_method"] →
        p.2 ≠ verifier ∧ ¬ verifier.data <:+: p.2.data) ∧
      (∀ p ∈ url.query, p.1 ∈ ["response_type", "client_id", "redirect_uri", "scope"] ∨
        p.1 ∈ ["state", "code_challenge", "code_challenge_method"]) :=
  ⟨rfl, login_redirect_never_carries_verifier sampleConfig sampleEnv 0 [] zeroTape []
    zeroOutcome rfl⟩


/-! ## C6: the entropy of the state -/

/-- C6 (counterexample): two 32-byte buffers that differ in their last byte give the same
state string. -/
theorem state_injective_counterexample :
    (List.replicate 32 0 : Entropy).length = 32 ∧
    (List.replicate 31 0 ++ [1] : Entropy).length = 32 ∧
    (List.replicate 32 0 : Entropy) ≠ List.replicate 31 0 ++ [1] ∧
    (randomString 32 (List.replicate 32 0)).toOption = some (zeroState, []) ∧
    (randomString 32 (List.replicate 31 0 ++ [1])).toOption = some (zeroState, []) := by
  decide

/-- C6 (amended): on 32-byte buffers `randomString 32` answers, and two buffers give the
same state exactly when their first 24 bytes agree: the state carries 24 of the 32 random
bytes, the `[:32]` slice dropping the characters that encode the last 8. -/
theorem state_carries_first_24_bytes (a c : Entropy) (ha : a.length = 32)
    (hc : c.length = 32) :
    ∃ s t, randomString 32 a = .ok (s, []) ∧ randomString 32 c = .ok (t, []) ∧
      (s = t ↔ a.take 24 = c.take 24) := by
  have ea : a.take 32 = a := List.take_of_length_le (by omega)
  have ec : c.take 32 = c := List.take_of_length_le (by omega)
  have da : a.drop 32 = [] := List.drop_of_length_le (by omega)
  have dc : c.drop 32 = [] := List.drop_of_length_le (by omega)
  have ta := rawURLEncode_take 8 a (by omega)
  have tc := rawURLEncode_take 8 c (by omega)
  simp only [Nat.reduceMul] at ta tc
  refine ⟨_, _, by rw [randomString_ok 32 a (by omega), ea, da, ta],
    by rw [randomString_ok 32 c (by omega), ec, dc, tc], ?_⟩
  constructor
  · intro h
    have h' : rawURLEncode (a.take 24) = rawURLEncode (c.take 24) :=
      congrArg String.data h
    exact rawURLEncode_inj 8 _ _ (by rw [List.length_take]; omega)
      (by rw [List.length_take]; omega) h'
  · intro h
    rw [h]

/-- Witness of `state_carries_first_24_bytes`: the zero buffer and the buffer ending in 1. -/
theorem state_carries_first_24_bytes_witness :
    (List.replicate 32 0 : Entropy).length = 32 ∧
    (List.replicate 31 0 ++ [1] : Entropy).length = 32 ∧
    ∃ s t, randomString 32 (List.replicate 32 0) = .ok (s, []) ∧
      randomString 32 (List.replicate 31 0 ++ [1]) = .ok (t, []) ∧
      (s = t ↔ (List.replicate 32 0 : Entropy).take 24
        = (List.replicate 31 0 ++ [1] : Entropy).take 24) :=
  ⟨by decide, by decide,
    state_carries_first_24_bytes (List.replicate 32 0) (List.replicate 31 0 ++ [1])
      (by decide) (by decide)⟩

/-! ## C7: length and alphabet of `randomString` -/

/-- C7: for every length `n` and every source that delivers `n` bytes, `randomString n`
answers a string of exactly `n` characters of the alphabet `A-Z a-z 0-9 - _`; the slice
`[:n]` is within the unpadded base64 text.  Hence the verifier `handleLogin` writes has
64 characters, within 43 to 128. -/
theorem randomString_length_and_alphabet (n : Nat) (src : Entropy) (h : n ≤ src.length) :
    (∃ s, randomString n src = .ok (s, src.drop n) ∧ s.length = n ∧
      (∀ c ∈ s.data, urlSafe c = true) ∧
      n ≤ (rawURLEncode (src.take n)).length ∧
      s.data = (rawURLEncode (src.take n)).take n) ∧
    (∀ (cfg : Config) (env : Env) (now : Nat) (st : Store) (out : Outcome) (src' : Entropy),
      handleLogin cfg env now st src = .ok (out, src') →
      ∃ state verifier, out.calls = [.redisSet state verifier (Minute * 5)] ∧
        verifier.length = 64 ∧ 43 ≤ verifier.length ∧ verifier.length ≤ 128) := by
  constructor
  · have hok := randomString_ok n src h
    refine ⟨_, hok, randomString_length hok, ?_, ?_, rfl⟩
    · intro c hc
      exact rawURLEncode_urlSafe _ c (List.mem_of_mem_take hc)
    · rw [rawURLEncode_length, List.length_take, Nat.min_eq_left h]
      omega
  · intro cfg env now st out src' hl
    obtain ⟨state, verifier, src1, _, h2, ho⟩ := handleLogin_inv hl
    have hv : verifier.length = 64 := randomString_length h2
    exact ⟨state, verifier, by rw [ho], hv, by omega, by omega⟩

/-- Witness of `randomString_length_and_alphabet`: 64 bytes read from the zero tape. -/
theorem randomString_length_and_alphabet_witness :
    64 ≤ zeroTape.length ∧
    ∃ s, randomString 64 zeroTape = .ok (s, zeroTape.drop 64) ∧ s.length = 64 ∧
      (∀ c ∈ s.data, urlSafe c = true) :=
  ⟨by decide,
    match (randomString_length_and_alphabet 64 zeroTape (by decide)).1 with
    | ⟨s, h1, h2, h3, _⟩ => ⟨s, h1, h2, h3⟩⟩


/-! ## C8: a login overwrites a live state -/

/-- C8 (counterexample): the store holds a live binding under the state that the run
generates; `handleLogin` still answers the 302 redirect, with no error, and the binding
now holds the new verifier and a new expiry. -/
theorem login_duplicate_state_counterexample :
    earlierStore.lookup zeroState = some ⟨zeroState, "earlier-verifier", some (Minute * 4)⟩ ∧
    (Entry.mk zeroState "earlier-verifier" (some (Minute * 4))).live 0 = true ∧
    (handleLogin sampleConfig sampleEnv 0 earlierStore zeroTape).toOption.map
        (fun o => (o.1.resp.status, o.1.store))
      = some (302, [⟨zeroState, zeroVerifier, some (Minute * 5)⟩]) := by
  decide

/-- C8 (amended): `handleLogin` makes no duplicate check.  With 96 random bytes and Redis
answering it answers the 302 redirect whether or not the state is already in the store, and
the write replaces the key: afterwards the state resolves to the new verifier with expiry
`now + 5 min`, and every other key resolves as before. -/
theorem login_overwrites_state (cfg : Config) (env : Env) (now : Nat) (st : Store)
    (src : Entropy) (h : 96 ≤ src.length) (hup : env.redisUp = true) :
    ∃ out state verifier,
      handleLogin cfg env now st src = .ok (out, src.drop 96) ∧
      out.resp.status = 302 ∧
      out.calls = [.redisSet state verifier (Minute * 5)] ∧
      out.store = ⟨state, verifier, some (now + Minute * 5)⟩
        :: st.filter (fun e => e.key != state) ∧
      out.store.lookup state = some ⟨state, verifier, some (now + Minute * 5)⟩ ∧
      ∀ k, k ≠ state → out.store.lookup k = st.lookup k := by
  obtain ⟨out, hout⟩ := handleLogin_total cfg env now st src h
  obtain ⟨state, verifier, src1, h1, h2, ho⟩ := handleLogin_inv hout
  have hpos : Minute * 5 ≠ 0 := by decide
  have hstore : out.store = ⟨state, verifier, some (now + Minute * 5)⟩
      :: st.filter (fun e => e.key != state) := by
    rw [ho, hup]
    simp only [redisSet, if_true, if_neg hpos]
  refine ⟨out, state, verifier, hout, by rw [ho]; rfl, by rw [ho], hstore, ?_, ?_⟩
  · rw [hstore]
    simp [Store.lookup]
  · intro k hk
    rw [hstore]
    have hb : (state == k) = false := by simpa using fun e => hk e.symm
    have : Store.lookup (⟨state, verifier, some (now + Minute * 5)⟩
        :: st.filter (fun e => e.key != state)) k
        = Store.lookup (st.filter (fun e => e.key != state)) k := by
      unfold Store.lookup
      exact List.find?_cons_of_neg _ (by simp [hb])
    rw [this, lookup_filter_other st state k hk]

/-- Witness of `login_overwrites_state`: the zero tape on a store that holds its state. -/
theorem login_overwrites_state_witness :
    96 ≤ zeroTape.length ∧ sampleEnv.redisUp = true ∧
    ∃ out state verifier,
      handleLogin sampleConfig sampleEnv 0 earlierStore zeroTape = .ok (out, zeroTape.drop 96) ∧
      out.resp.status = 302 ∧
      out.calls = [.redisSet state verifier (Minute * 5)] ∧
      out.store = ⟨state, verifier, some (0 + Minute * 5)⟩
        :: earlierStore.filter (fun e => e.key != state) ∧
      out.store.lookup state = some ⟨state, verifier, some (0 + Minute * 5)⟩ ∧
      ∀ k, k ≠ state → out.store.lookup k = earlierStore.lookup k :=
  ⟨by decide, rfl,
    login_overwrites_state sampleConfig sampleEnv 0 earlierStore zeroTape (by decide) rfl⟩

/-! ## C9: the signed claim set -/

/-- C9 (counterexample): two callbacks of two different flows at the same instant sign the
same claim set, whose members are `access_token`, `exp` and `user`: nothing in it
identifies the credential and nothing records the instant of issue. -/
theorem claims_identifier_counterexample :
    (handleCallback sampleConfig sampleEnv 0 twoFlowStore zeroCallback).calls
      = [.redisGet zeroState, .exchange "authcode123" zeroVerifier, .userinfo "up-tok",
          .sign sampleClaims "jwt-secret"] ∧
    (handleCallback sampleConfig sampleEnv 0 twoFlowStore otherCallback).calls
      = [.redisGet "other-state", .exchange "authcode456" "other-verifier", .userinfo "up-tok",
          .sign sampleClaims "jwt-secret"] ∧
    sampleClaims.map Prod.fst = ["access_token", "exp", "user"] ∧
    (handleCallback sampleConfig sampleEnv 0 twoFlowStore zeroCallback).resp.status = 200 ∧
    (handleCallback sampleConfig sampleEnv 0 twoFlowStore otherCallback).resp.status = 200 := by
  decide

/-- C9 (amended): every claim set `handleCallback` signs has exactly three members:
`access_token`, the access token that the token exchange returned for the stored verifier;
`exp`, the Unix seconds of now plus one hour; and `user`, the decoded body of the userinfo
response for that token; it is signed with `jwtSecret`.  A callback that answers 200 returns
the signature of such a claim set.  `generateJWT` signs exactly `access_token`, its argument,
and `exp`.  No member identifies the credential or records the instant of issue. -/
theorem signed_claims_are_token_exp_user (cfg : Config) (env : Env) (now : Nat) (st : Store)
    (r : Request) (claims : MapClaims) (secret : String)
    (h : Call.sign claims secret ∈ (handleCallback cfg env now st r).calls) :
    (∃ (v : String) (token : Token) (resp : HTTPResponse) (userInfo : UserInfo),
      redisGet env.redisUp st now (r.query.get "state") = .ok v ∧
      env.exchange (r.query.get "code") v = .ok token ∧
      env.userinfo token = .ok resp ∧ env.decode resp.body = .ok userInfo ∧
      claims = [("access_token", .str token.accessToken), ("exp", .num (unix now + 3600)),
        ("user", .obj userInfo)] ∧ secret = cfg.jwtSecret ∧
      ((handleCallback cfg env now st r).resp.status = 200 →
        ∃ jwt, env.sign claims secret = .ok jwt ∧
          (handleCallback cfg env now st r).resp
            = .json [("jwt_token", .str jwt), ("user", .obj userInfo)])) ∧
    claims.map Prod.fst = ["access_token", "exp", "user"] ∧
    (∀ (s tok : String), generateJWT env now s tok
      = env.sign [("access_token", .str tok), ("exp", .num (unix now + 3600))] s) := by
  obtain ⟨v, token, resp, userInfo, hget, hex, hui, hde, hc, hs⟩ :=
    handleCallback_sign_origin cfg env now st r claims secret h
  refine ⟨⟨v, token, resp, userInfo, hget, hex, hui, hde, by rw [hc, unix_add_hour], hs, ?_⟩,
    by rw [hc]; rfl, ?_⟩
  · intro h200
    obtain ⟨v2, resp2, jwt, tok2, u2, hget2, hex2, hui2, hde2, hsg2⟩ :=
      handleCallback_status_200 cfg env now st r h200
    have ev : v2 = v := Except.ok.inj (hget2.symm.trans hget)
    subst ev
    have et : tok2 = token := Except.ok.inj (hex2.symm.trans hex)
    subst et
    have er : resp2 = resp := Except.ok.inj (hui2.symm.trans hui)
    subst er
    have eu : u2 = userInfo := Except.ok.inj (hde2.symm.trans hde)
    subst eu
    refine ⟨jwt, by rw [hc, hs]; exact hsg2, ?_⟩
    rw [handleCallback_success cfg env now st r v2 resp2 jwt tok2 u2 hget2 hex2 hui2 hde2 hsg2]
  · intro s tok
    simp only [generateJWT, unix_add_hour]

/-- Witness of `signed_claims_are_token_exp_user`: the callback of the zero tape signs the
token and the userinfo document of the sample environment and returns the signature. -/
theorem signed_claims_are_token_exp_user_witness :
    Call.sign sampleClaims "jwt-secret"
      ∈ (handleCallback sampleConfig sampleEnv 0 zeroStore zeroCallback).calls ∧
    (∃ (v : String) (token : Token) (resp : HTTPResponse) (userInfo : UserInfo),
      redisGet sampleEnv.redisUp zeroStore 0 (zeroCallback.query.get "state") = .ok v ∧
      sampleEnv.exchange (zeroCallback.query.get "code") v = .ok token ∧
      sampleEnv.userinfo token = .ok resp ∧ sampleEnv.decode resp.body = .ok userInfo ∧
      sampleClaims = [("access_token", .str token.accessToken), ("exp", .num (unix 0 + 3600)),
        ("user", .obj userInfo)] ∧ "jwt-secret" = sampleConfig.jwtSecret ∧
      ((handleCallback sampleConfig sampleEnv 0 zeroStore zeroCallback).resp.status = 200 →
        ∃ jwt, sampleEnv.sign sampleClaims "jwt-secret" = .ok jwt ∧
          (handleCallback sampleConfig sampleEnv 0 zeroStore zeroCallback).resp
            = .json [("jwt_token", .str jwt), ("user", .obj userInfo)])) ∧
    (handleCallback sampleConfig sampleEnv 0 zeroStore zeroCallback).resp.status = 200 ∧
    sampleClaims.map Prod.fst = ["access_token", "exp", "user"] :=
  have k := signed_claims_are_token_exp_user sampleConfig sampleEnv 0 zeroStore zeroCallback
    sampleClaims "jwt-secret" (by decide)
  ⟨by decide, k.1, by decide, k.2.1⟩

/-! ## C10: logout deletes a key, it records nothing -/

/-- C10 (counterexample): after a callback has issued the credential "signed" and
`handleLogout` has been called with it, the store is what it was, holds nothing under the
credential, and a lookup of it answers `redis.Nil`: no revocation record can be queried. -/
theorem logout_revocation_counterexample :
    (handleCallback sampleConfig sampleEnv 0 zeroStore zeroCallback).resp
      = .json [("jwt_token", .str "signed"), ("user", .obj [("sub", "\"1\"")])] ∧
    (handleLogout sampleEnv zeroStore ⟨[("token", "signed")]⟩).store = zeroStore ∧
    (handleLogout sampleEnv zeroStore ⟨[("token", "signed")]⟩).store.lookup "signed" = none ∧
    (redisGet true (handleLogout sampleEnv zeroStore ⟨[("token", "signed")]⟩).store 1
      "signed").toOption = none := by
  decide

/-- C10 (amended): `handleLogout` writes no record: every entry of the store afterwards was
there before.  With a non-empty token and Redis answering, its one call deletes the key
equal to the token, after which nothing is stored under the token and a lookup of it fails
at every instant. -/
theorem logout_deletes_and_records_nothing (env : Env) (st : Store) (r : Request)
    (hup : env.redisUp = true) (htok : r.query.get "token" ≠ "") :
    (∀ e ∈ (handleLogout env st r).store, e ∈ st) ∧
    (handleLogout env st r).calls = [.redisDel (r.query.get "token")] ∧
    (handleLogout env st r).store = st.filter (fun e => e.key != r.query.get "token") ∧
    (handleLogout env st r).store.lookup (r.query.get "token") = none ∧
    ∀ (up : Bool) (now : Nat),
      ∃ err, redisGet up (handleLogout env st r).store now (r.query.get "token")
        = .error err := by
  have hb : (r.query.get "token" != "") = true := by simpa using htok
  have hstore : (handleLogout env st r).store
      = (redisDel true st (r.query.get "token")).1 := by
    simp only [handleLogout, hb, if_true, hup]
  have hlk : (handleLogout env st r).store.lookup (r.query.get "token") = none := by
    rw [hstore]; exact lookup_redisDel st _
  refine ⟨handleLogout_store_subset env st r, ?_, ?_, hlk, ?_⟩
  · simp only [handleLogout, hb, if_true]
  · rw [hstore]; simp only [redisDel, if_true]
  · intro up now
    apply redisGet_no_live
    intro e he hk
    have := List.find?_eq_none.mp hlk e he
    simp [hk] at this

/-- Witness of `logout_deletes_and_records_nothing`: logging out the state of the zero
tape. -/
theorem logout_deletes_and_records_nothing_witness :
    sampleEnv.redisUp = true ∧ (Request.mk [("token", zeroState)]).query.get "token" ≠ "" ∧
    (handleLogout sampleEnv zeroStore ⟨[("token", zeroState)]⟩).store.lookup
      ((Request.mk [("token", zeroState)]).query.get "token") = none :=
  ⟨rfl, by decide,
    (logout_deletes_and_records_nothing sampleEnv zeroStore ⟨[("token", zeroState)]⟩ rfl
      (by decide)).2.2.2.1⟩


/-! ## C11: the status of a failed callback -/

/-- C11 (counterexample): first, the store holds the live binding of the state, Redis does
not answer, and `handleCallback` answers 401 "Invalid or expired state", not a 5xx status,
while with Redis answering the same request answers 200.  Second, the userinfo endpoint
rejects the request with status 401 and a JSON error document, and `handleCallback` answers
200 with a signed token whose `user` is that error document. -/
theorem callback_failure_status_counterexample :
    zeroStore.lookup zeroState = some ⟨zeroState, zeroVerifier, some (Minute * 5)⟩ ∧
    (Entry.mk zeroState zeroVerifier (some (Minute * 5))).live 1 = true ∧
    downEnv.redisUp = false ∧
    (handleCallback sampleConfig downEnv 1 zeroStore zeroCallback).resp
      = .error 401 "Invalid or expired state" ∧
    (handleCallback sampleConfig sampleEnv 1 zeroStore zeroCallback).resp.status = 200 ∧
    (rejectEnv.userinfo ⟨"up-tok", "Bearer", ""⟩).toOption.map (fun x => x.statusCode)
      = some 401 ∧
    (handleCallback sampleConfig rejectEnv 1 zeroStore zeroCallback).resp
      = .json [("jwt_token", .str "signed"), ("user", .obj [("error", "\"invalid_token\"")])] ∧
    (handleCallback sampleConfig rejectEnv 1 zeroStore zeroCallback).resp.status = 200 := by
  decide

/-- C11 (amended): `handleCallback` answers 401 exactly when the store lookup returns an
error, which is when Redis does not answer, or the state is absent, or its entry has expired;
it answers 500 when the token exchange returns an error, when the userinfo request returns an
error, when the body of the userinfo response does not decode, and when signing returns an
error; and it answers 200 exactly when the lookup, the exchange, the userinfo request, the
decoding and the signing all returned without error.  No other status is answered. -/
theorem callback_status_by_failure (cfg : Config) (env : Env) (now : Nat) (st : Store)
    (r : Request) :
    ((handleCallback cfg env now st r).resp.status = 401 ↔
      ∃ err, redisGet env.redisUp st now (r.query.get "state") = .error err) ∧
    ((∃ err, redisGet env.redisUp st now (r.query.get "state") = .error err) ↔
      (env.redisUp = false ∨ st.lookup (r.query.get "state") = none ∨
        ∃ e, st.lookup (r.query.get "state") = some e ∧ e.live now = false)) ∧
    (∀ v err, redisGet env.redisUp st now (r.query.get "state") = .ok v →
      env.exchange (r.query.get "code") v = .error err →
      (handleCallback cfg env now st r).resp.status = 500) ∧
    (∀ v tok err, redisGet env.redisUp st now (r.query.get "state") = .ok v →
      env.exchange (r.query.get "code") v = .ok tok → env.userinfo tok = .error err →
      (handleCallback cfg env now st r).resp.status = 500) ∧
    (∀ v tok resp err, redisGet env.redisUp st now (r.query.get "state") = .ok v →
      env.exchange (r.query.get "code") v = .ok tok → env.userinfo tok = .ok resp →
      env.decode resp.body = .error err →
      (handleCallback cfg env now st r).resp.status = 500) ∧
    (∀ v tok resp u err, redisGet env.redisUp st now (r.query.get "state") = .ok v →
      env.exchange (r.query.get "code") v = .ok tok → env.userinfo tok = .ok resp →
      env.decode resp.body = .ok u →
      env.sign [("access_token", .str tok.accessToken), ("exp", .num (unix (now + Hour))),
        ("user", .obj u)] cfg.jwtSecret = .error err →
      (handleCallback cfg env now st r).resp.status = 500) ∧
    ((handleCallback cfg env now st r).resp.status = 200 ↔
      ∃ (v : String) (resp : HTTPResponse) (jwt : String) (tok : Token) (u : UserInfo),
        redisGet env.redisUp st now (r.query.get "state") = .ok v ∧
        env.exchange (r.query.get "code") v = .ok tok ∧
        env.userinfo tok = .ok resp ∧ env.decode resp.body = .ok u ∧
        env.sign [("access_token", .str tok.accessToken), ("exp", .num (unix (now + Hour))),
          ("user", .obj u)] cfg.jwtSecret = .ok jwt) ∧
    ((handleCallback cfg env now st r).resp.status = 200 ∨
      (handleCallback cfg env now st r).resp.status = 401 ∨
      (handleCallback cfg env now st r).resp.status = 500) := by
  refine ⟨?_, redisGet_error_iff _ st now _, ?_, ?_, ?_, ?_, ?_,
    handleCallback_status_range cfg env now st r⟩
  · constructor
    · intro h
      rcases redisGet_ok_or_error env.redisUp st now (r.query.get "state") with ⟨v, hv⟩ | he
      · exact absurd h (handleCallback_hit cfg env now st r v hv).1
      · exact he
    · rintro ⟨err, herr⟩
      rw [handleCallback_miss cfg env now st r err herr]
      rfl
  · intro v err hget hex
    rw [handleCallback_exchange_error cfg env now st r v err hget hex]
    rfl
  · intro v tok err hget hex hui
    rw [handleCallback_userinfo_error cfg env now st r v err tok hget hex hui]
    rfl
  · intro v tok resp err hget hex hui hde
    rw [handleCallback_decode_error cfg env now st r v resp err tok hget hex hui hde]
    rfl
  · intro v tok resp u err hget hex hui hde hsg
    rw [handleCallback_sign_error cfg env now st r v resp err tok u hget hex hui hde hsg]
    rfl
  · constructor
    · exact handleCallback_status_200 cfg env now st r
    · rintro ⟨v, resp, jwt, tok, u, hget, hex, hui, hde, hsg⟩
      rw [handleCallback_success cfg env now st r v resp jwt tok u hget hex hui hde hsg]
      rfl

/-- Witness of `callback_status_by_failure`: with Redis down the callback of the zero tape
answers 401, with the token endpoint failing it answers 500, and with every step returning
without error it answers 200. -/
theorem callback_status_by_failure_witness :
    (handleCallback sampleConfig downEnv 1 zeroStore zeroCallback).resp.status = 401 ∧
    (handleCallback sampleConfig (sampleEnv.failExchange "invalid_grant") 1 zeroStore
      zeroCallback).resp.status = 500 ∧
    (handleCallback sampleConfig sampleEnv 1 zeroStore zeroCallback).resp.status = 200 :=
  ⟨(callback_status_by_failure sampleConfig downEnv 1 zeroStore zeroCallback).1.mpr
      ⟨.unavailable, rfl⟩,
    (callback_status_by_failure sampleConfig (sampleEnv.failExchange "invalid_grant") 1
      zeroStore zeroCallback).2.2.1 zeroVerifier "invalid_grant" rfl rfl,
    (callback_status_by_failure sampleConfig sampleEnv 1 zeroStore
      zeroCallback).2.2.2.2.2.2.1.mpr
      ⟨zeroVerifier, ⟨200, "\x7b\"sub\":\"1\"\x7d"⟩, "signed", ⟨"up-tok", "Bearer", ""⟩,
        [("sub", "\"1\"")], rfl, rfl, rfl, rfl, rfl⟩⟩

/-! ## C12: the error text of the upstream reaches the response -/

/-- C12 (counterexample): two runs that differ only in the error text of the token
exchange write different bodies, each carrying its error text; so do two runs that differ
only in the error text of the userinfo request. -/
theorem callback_error_text_counterexample :
    (handleCallback sampleConfig (sampleEnv.failExchange "invalid_grant") 1 zeroStore
      zeroCallback).resp = .error 500 "Failed to exchange token: invalid_grant" ∧
    (handleCallback sampleConfig (sampleEnv.failExchange "connection refused") 1 zeroStore
      zeroCallback).resp = .error 500 "Failed to exchange token: connection refused" ∧
    (handleCallback sampleConfig (sampleEnv.failExchange "invalid_grant") 1 zeroStore
      zeroCallback).resp
      ≠ (handleCallback sampleConfig (sampleEnv.failExchange "connection refused") 1 zeroStore
        zeroCallback).resp ∧
    (handleCallback sampleConfig (sampleEnv.failUserinfo "timeout") 1 zeroStore
      zeroCallback).resp
      ≠ (handleCallback sampleConfig (sampleEnv.failUserinfo "EOF") 1 zeroStore
        zeroCallback).resp := by
  decide

/-- C12 (amended): when the lookup has found the verifier, two runs that differ only in the
error text of the token exchange both answer 500, with the body "Failed to exchange token: "
followed by the error text, so the bodies agree exactly when the texts do; the same holds,
after a successful exchange, for the userinfo request and "Failed to get user info: ". -/
theorem callback_failure_body_carries_error_text (cfg : Config) (env : Env) (now : Nat)
    (st : Store) (r : Request) (v : String)
    (hget : redisGet env.redisUp st now (r.query.get "state") = .ok v) (e1 e2 : String) :
    ((handleCallback cfg (env.failExchange e1) now st r).resp
        = .error 500 ("Failed to exchange token: " ++ e1) ∧
      (handleCallback cfg (env.failExchange e1) now st r).resp.status
        = (handleCallback cfg (env.failExchange e2) now st r).resp.status ∧
      ((handleCallback cfg (env.failExchange e1) now st r).resp
        = (handleCallback cfg (env.failExchange e2) now st r).resp ↔ e1 = e2)) ∧
    (∀ tok, env.exchange (r.query.get "code") v = .ok tok →
      (handleCallback cfg (env.failUserinfo e1) now st r).resp
        = .error 500 ("Failed to get user info: " ++ e1) ∧
      (handleCallback cfg (env.failUserinfo e1) now st r).resp.status
        = (handleCallback cfg (env.failUserinfo e2) now st r).resp.status ∧
      ((handleCallback cfg (env.failUserinfo e1) now st r).resp
        = (handleCallback cfg (env.failUserinfo e2) now st r).resp ↔ e1 = e2)) := by
  have hx : ∀ e, (handleCallback cfg (env.failExchange e) now st r).resp
      = .error 500 ("Failed to exchange token: " ++ e) := fun e =>
    handleCallback_exchange_error cfg (env.failExchange e) now st r v e hget rfl
  refine ⟨⟨hx e1, by rw [hx e1, hx e2]; rfl, ?_⟩, ?_⟩
  · rw [hx e1, hx e2]
    simp only [Response.error.injEq, true_and]
    exact string_append_left_cancel _ e1 e2
  · intro tok hex
    have hu : ∀ e, (handleCallback cfg (env.failUserinfo e) now st r).resp
        = .error 500 ("Failed to get user info: " ++ e) := fun e =>
      handleCallback_userinfo_error cfg (env.failUserinfo e) now st r v e tok hget hex rfl
    refine ⟨hu e1, by rw [hu e1, hu e2]; rfl, ?_⟩
    rw [hu e1, hu e2]
    simp only [Response.error.injEq, true_and]
    exact string_append_left_cancel _ e1 e2

/-- Witness of `callback_failure_body_carries_error_text`: the callback of the zero tape
with two error texts of the token endpoint. -/
theorem callback_failure_body_carries_error_text_witness :
    redisGet sampleEnv.redisUp zeroStore 1 (zeroCallback.query.get "state") = .ok zeroVerifier ∧
    (handleCallback sampleConfig (sampleEnv.failExchange "invalid_grant") 1 zeroStore
      zeroCallback).resp = .error 500 ("Failed to exchange token: " ++ "invalid_grant") ∧
    (handleCallback sampleConfig (sampleEnv.failExchange "invalid_grant") 1 zeroStore
        zeroCallback).resp.status
      = (handleCallback sampleConfig (sampleEnv.failExchange "connection refused") 1 zeroStore
        zeroCallback).resp.status :=
  have k := callback_failure_body_carries_error_text sampleConfig sampleEnv 1 zeroStore
    zeroCallback zeroVerifier rfl "invalid_grant" "connection refused"
  ⟨rfl, k.1.1, k.1.2.1⟩

/-! ## C13: a failed write of the binding is not reported -/

/-- C13 (counterexample): Redis does not answer, the write of the binding fails, and
`handleLogin` still answers the 302 redirect carrying the state; the store holds nothing
under that state, and the callback for it answers 401. -/
theorem login_store_failure_counterexample :
    (redisSet downEnv.redisUp [] 0 zeroState zeroVerifier (Minute * 5)).2
      = some .unavailable ∧
    (handleLogin sampleConfig downEnv 0 [] zeroTape).toOption.map
        (fun o => (o.1.resp.status, o.1.resp.location.map (fun u => u.query.get "state"),
          o.1.store, o.1.calls))
      = some (302, some zeroState, [], [.redisSet zeroState zeroVerifier (Minute * 5)]) ∧
    (handleCallback sampleConfig sampleEnv 1 [] zeroCallback).resp
      = .error 401 "Invalid or expired state" := by
  decide

/-- C13 (amended): when the write of the binding fails because Redis does not answer,
`handleLogin` does not report it: with 96 random bytes it still answers the 302 redirect
carrying the generated state, its one call is the failed write, and the store is left as
it was. -/
theorem login_ignores_store_failure (cfg : Config) (env : Env) (now : Nat) (st : Store)
    (src : Entropy) (h : 96 ≤ src.length) (hdown : env.redisUp = false) :
    ∃ out state verifier url,
      handleLogin cfg env now st src = .ok (out, src.drop 96) ∧
      redisSet env.redisUp st now state verifier (Minute * 5) = (st, some .unavailable) ∧
      out.calls = [.redisSet state verifier (Minute * 5)] ∧
      out.resp = .redirect 302 url ∧
      url.query.get "state" = state ∧
      out.store = st := by
  obtain ⟨out, hout⟩ := handleLogin_total cfg env now st src h
  obtain ⟨state, verifier, src1, h1, h2, ho⟩ := handleLogin_inv hout
  have hne : state ≠ "" := string_ne_empty_of_length (randomString_length h1)
  obtain ⟨u1, _, _⟩ := AuthCodeURL_login cfg state (generateCodeChallenge verifier) hne
  have hset : redisSet env.redisUp st now state verifier (Minute * 5)
      = (st, some .unavailable) := by
    rw [hdown]; rfl
  refine ⟨out, state, verifier, _, hout, hset, by rw [ho], by rw [ho], u1, ?_⟩
  rw [ho]
  simp only [hset]

/-- Witness of `login_ignores_store_failure`: the zero tape with Redis down. -/
theorem login_ignores_store_failure_witness :
    96 ≤ zeroTape.length ∧ downEnv.redisUp = false ∧
    ∃ out state verifier url,
      handleLogin sampleConfig downEnv 0 zeroStore zeroTape = .ok (out, zeroTape.drop 96) ∧
      redisSet downEnv.redisUp zeroStore 0 state verifier (Minute * 5)
        = (zeroStore, some .unavailable) ∧
      out.calls = [.redisSet state verifier (Minute * 5)] ∧
      out.resp = .redirect 302 url ∧
      url.query.get "state" = state ∧
      out.store = zeroStore :=
  ⟨by decide, rfl,
    login_ignores_store_failure sampleConfig downEnv 0 zeroStore zeroTape (by decide) rfl⟩


/-! ## C14: logout is idempotent -/

/-- C14: for every token, known or unknown, already deleted or empty, and whether or not
Redis answers, `handleLogout` answers 200 "Logged out successfully"; a second call with the
same request leaves the store as the first call left it, and once the first call ran with
Redis answering this holds for the second call in any environment. -/
theorem logout_idempotent (env : Env) (st : Store) (r : Request) :
    (handleLogout env st r).resp = .text "Logged out successfully" ∧
    (handleLogout env st r).resp.status = 200 ∧
    (handleLogout env (handleLogout env st r).store r).resp = .text "Logged out successfully" ∧
    (handleLogout env (handleLogout env st r).store r).store = (handleLogout env st r).store ∧
    (∀ env2 : Env, env.redisUp = true →
      (handleLogout env2 (handleLogout env st r).store r).store
        = (handleLogout env st r).store) := by
  refine ⟨handleLogout_resp env st r, by rw [handleLogout_resp]; rfl,
    handleLogout_resp env _ r, ?_, ?_⟩
  · rw [handleLogout_store env (handleLogout env st r).store r, handleLogout_store env st r]
    by_cases hc : r.query.get "token" ≠ "" ∧ env.redisUp = true
    · simp only [if_pos hc, filter_key_idem]
    · simp only [if_neg hc]
  · intro env2 hup
    rw [handleLogout_store env2 (handleLogout env st r).store r, handleLogout_store env st r]
    by_cases ht : r.query.get "token" = ""
    · simp [ht]
    · have hc : r.query.get "token" ≠ "" ∧ env.redisUp = true := ⟨ht, hup⟩
      by_cases hc2 : r.query.get "token" ≠ "" ∧ env2.redisUp = true
      · simp only [if_pos hc, if_pos hc2, filter_key_idem]
      · simp only [if_pos hc, if_neg hc2]

/-- Witness of `logout_idempotent`: logging out the state of the zero tape twice. -/
theorem logout_idempotent_witness :
    (handleLogout sampleEnv zeroStore zeroLogout).store = [] ∧
    (handleLogout sampleEnv (handleLogout sampleEnv zeroStore zeroLogout).store
      zeroLogout).store = (handleLogout sampleEnv zeroStore zeroLogout).store ∧
    (handleLogout sampleEnv (handleLogout sampleEnv zeroStore zeroLogout).store
      zeroLogout).resp = .text "Logged out successfully" :=
  ⟨by decide, (logout_idempotent sampleEnv zeroStore zeroLogout).2.2.2.1,
    (logout_idempotent sampleEnv zeroStore zeroLogout).2.2.1⟩

/-! ## C15: the expiry claim -/

/-- C15: at instant `now`, every claim set `handleCallback` signs, and the claim set
`generateJWT` signs, has `exp` equal to the Unix seconds of `now` plus 3600; a callback that
answers 200 has signed such a claim set; the lifetime is `time.Hour`, 3600 seconds. -/
theorem exp_is_one_hour_after_now (cfg : Config) (env : Env) (now : Nat) (st : Store)
    (r : Request) :
    (∀ claims secret, Call.sign claims secret ∈ (handleCallback cfg env now st r).calls →
      claims.lookup "exp" = some (.num (unix now + 3600))) ∧
    ((handleCallback cfg env now st r).resp.status = 200 →
      ∃ claims, Call.sign claims cfg.jwtSecret ∈ (handleCallback cfg env now st r).calls ∧
        claims.lookup "exp" = some (.num (unix now + 3600))) ∧
    (∀ secret tok : String, ∃ claims, generateJWT env now secret tok = env.sign claims secret ∧
      claims.lookup "exp" = some (.num (unix now + 3600))) ∧
    unix (now + Hour) = unix now + 3600 ∧ Hour = 3600 * Second := by
  refine ⟨?_, ?_, ?_, unix_add_hour now, by decide⟩
  · intro claims secret h
    obtain ⟨token, userInfo, hc, _⟩ := handleCallback_sign cfg env now st r claims secret h
    rw [hc, unix_add_hour]
    rfl
  · intro h
    obtain ⟨v, resp, jwt, tok, u, hget, hex, hui, hde, hsg⟩ :=
      handleCallback_status_200 cfg env now st r h
    refine ⟨[("access_token", .str tok.accessToken), ("exp", .num (unix (now + Hour))),
      ("user", .obj u)], ?_, ?_⟩
    · rw [handleCallback_success cfg env now st r v resp jwt tok u hget hex hui hde hsg]
      simp
    · rw [unix_add_hour]
      rfl
  · intro secret tok
    refine ⟨_, rfl, ?_⟩
    rw [unix_add_hour]
    rfl

/-- Witness of `exp_is_one_hour_after_now`: the callback of the zero tape at instant 0
signs `exp = 3600`. -/
theorem exp_is_one_hour_after_now_witness :
    Call.sign sampleClaims "jwt-secret"
      ∈ (handleCallback sampleConfig sampleEnv 0 zeroStore zeroCallback).calls ∧
    sampleClaims.lookup "exp" = some (.num (unix 0 + 3600)) :=
  ⟨by decide,
    (exp_is_one_hour_after_now sampleConfig sampleEnv 0 zeroStore zeroCallback).1
      sampleClaims "jwt-secret" (by decide)⟩

/-! ## C16: what a logout changes -/

/-- C16: `handleLogout` changes the store at the key equal to the token only: every other
key resolves as before and the entries under other keys are the same; an empty token leaves
the store as it was and makes no call.  With a non-empty token and Redis answering, the
callback for the state equal to the token answers 401 afterwards; and this happens to a
pending flow: after a login on the zero tape, the callback for its state answers 200, and
after a logout with that state as token it answers 401. -/
theorem logout_frame (env : Env) (st : Store) (r : Request) :
    (∀ k, k ≠ r.query.get "token" → (handleLogout env st r).store.lookup k = st.lookup k) ∧
    (∀ e : Entry, e.key ≠ r.query.get "token" →
      (e ∈ (handleLogout env st r).store ↔ e ∈ st)) ∧
    (r.query.get "token" = "" →
      (handleLogout env st r).store = st ∧ (handleLogout env st r).calls = []) ∧
    (∀ (cfg : Config) (env' : Env) (now : Nat) (rc : Request),
      env.redisUp = true → r.query.get "token" ≠ "" →
      rc.query.get "state" = r.query.get "token" →
      handleCallback cfg env' now (handleLogout env st r).store rc
        = ⟨.error 401 "Invalid or expired state", (handleLogout env st r).store,
            [.redisGet (r.query.get "token")]⟩) ∧
    (handleLogin sampleConfig sampleEnv 0 [] zeroTape = .ok (zeroOutcome, []) ∧
      zeroLogout.query.get "token" = zeroCallback.query.get "state" ∧
      (handleCallback sampleConfig sampleEnv 1 zeroOutcome.store zeroCallback).resp.status
        = 200 ∧
      (handleCallback sampleConfig sampleEnv 1
        (handleLogout sampleEnv zeroOutcome.store zeroLogout).store zeroCallback).resp.status
        = 401) := by
  refine ⟨?_, ?_, ?_, ?_, rfl, by decide, by decide, by decide⟩
  · intro k hk
    rw [handleLogout_store]
    split
    · exact lookup_filter_other st _ k hk
    · rfl
  · intro e he
    rw [handleLogout_store]
    split
    · simp [List.mem_filter, he]
    · rfl
  · intro ht
    simp [handleLogout, ht]
  · intro cfg env' now rc hup htok hstate
    have hlk : (handleLogout env st r).store.lookup (r.query.get "token") = none := by
      rw [handleLogout_store, if_pos ⟨htok, hup⟩]
      exact lookup_redisDel st _
    have hdead : ∀ e ∈ (handleLogout env st r).store, e.key = rc.query.get "state"
        → e.live now = false := by
      intro e he hk
      have := List.find?_eq_none.mp hlk e he
      simp [hk, hstate] at this
    rw [handleCallback_no_live cfg env' now _ rc hdead, hstate]

/-- Witness of `logout_frame`: a logout with the state of one of two pending flows leaves
the other flow resolving as before. -/
theorem logout_frame_witness :
    "other-state" ≠ zeroLogout.query.get "token" ∧
    (handleLogout sampleEnv twoFlowStore zeroLogout).store.lookup "other-state"
      = twoFlowStore.lookup "other-state" ∧
    (handleLogout sampleEnv twoFlowStore zeroLogout).store.lookup zeroState = none :=
  ⟨by decide,
    (logout_frame sampleEnv twoFlowStore zeroLogout).1 "other-state" (by decide),
    by decide⟩

end OAuth2
